import Mathlib

/-!
Verification of `OpenGLCourseApp/OpenGLCourseApp/main.cpp`.

A shallow embedding of `main.cpp`: the program is straight-line code and one
loop over three globals (`VAO`, `VBO`, `shader`), and its whole effect is the
sequence of calls it makes to GLFW, GLEW, OpenGL and `printf`.  The embedding
threads a `World` (the globals together with the trace of calls made so far)
through each function.  The answers of the external libraries are taken from
a `Device`, an arbitrary function of the history of calls, so a theorem
quantified over `Device` holds for every behaviour of the collaborators.

Conventions:
* handles, enumerants and pointers are natural numbers (`0` is `NULL`), status
  variables are integers; the program does no arithmetic on them;
* the float literals of the source are all integers and are carried as such;
* a `char` buffer is a list of character codes, a C string the part of it
  before the first null;
* the frame loop is run for at most `fuel` evaluations of its condition.
-/

namespace OpenGLCourseApp

/-! ## Constants of `GL/glew.h` and `GLFW/glfw3.h` -/

def GL_FALSE : Nat := 0
def GL_TRUE : Nat := 1
def GL_TRIANGLES : Nat := 0x0004
def GL_FLOAT : Nat := 0x1406
def GL_COLOR_BUFFER_BIT : Nat := 0x4000
def GL_ARRAY_BUFFER : Nat := 0x8892
def GL_STATIC_DRAW : Nat := 0x88E4
def GL_FRAGMENT_SHADER : Nat := 0x8B30
def GL_VERTEX_SHADER : Nat := 0x8B31
def GL_COMPILE_STATUS : Nat := 0x8B81
def GL_LINK_STATUS : Nat := 0x8B82
def GL_VALIDATE_STATUS : Nat := 0x8B83
def GLEW_OK : Nat := 0
def GLFW_CONTEXT_VERSION_MAJOR : Nat := 0x00022002
def GLFW_CONTEXT_VERSION_MINOR : Nat := 0x00022003
def GLFW_OPENGL_FORWARD_COMPAT : Nat := 0x00022006
def GLFW_OPENGL_PROFILE : Nat := 0x00022008
def GLFW_OPENGL_CORE_PROFILE : Nat := 0x00032001

/-! ## Globals and literals of the source -/

/-- Window dimensions (`const GLint WIDTH = 800, HEIGHT = 600;`). -/
def WIDTH : Int := 800
def HEIGHT : Int := 600

/-- Vertex shader source (`static const char* vShader`). -/
def vShader : String :=
  "\t\t\t\t\t\t\t\t\t\t\t\n#version 330\t\t\t\t\t\t\t\t\t\t\t\t\t\t\t\n\t\t\t\t\t\t\t\t\t\t\t\t\t\t\t\t\t\t\nlayout (location = 0) in vec3 pos;\t\t\t\t\t\t\t\t\t\t\n\t\t\t\t\t\t\t\t\t\t\t\t\t\t\t\t\t\t\nvoid main() \x7b\t\t\t\t\t\t\t\t\t\t\t\t\t\t\t\n\tgl_Position = vec4(pos.x, pos.y, pos.z, 1.0);\t\t\t\t\t\t\n\x7d"

/-- Fragment shader source (`static const char* fShader`). -/
def fShader : String :=
  "\t\t\t\t\t\t\t\t\t\t\t\n#version 330\t\t\t\t\t\t\t\t\t\t\t\t\t\t\t\n\t\t\t\t\t\t\t\t\t\t\t\t\t\t\t\t\t\t\nout vec4 colour;\t\t\t\t\t\t\t\t\t\t\t\t\t\t\n\t\t\t\t\t\t\t\t\t\t\t\t\t\t\t\t\t\t\nvoid main() \x7b\t\t\t\t\t\t\t\t\t\t\t\t\t\t\t\n\tcolour = vec4(1.0f, 0.0f, 0.0f, 1.0f);\t\t\t\t\t\t\t\t\n\x7d"

/-- The array `GLfloat vertices[]` of `CreateTriangle`.  Every float literal
of the source is an integer and no floating-point arithmetic is performed on
them, so they are carried as their exact values. -/
def vertices : List Int :=
  [-1, -1, 0,
    1, -1, 0,
    0,  1, 0]

/-- Size in bytes of a `GLfloat`. -/
def sizeofGLfloat : Nat := 4

/-- Value of `sizeof(eLog)` for `GLchar eLog[1024]`. -/
def sizeofELog : Nat := 1024

/-! ## Calls, answers and the trace -/

/-- An argument of `printf` after the format string. -/
inductive PrintfArg where
  /-- An integer argument (consumed by a `%d` conversion). -/
  | num (v : Nat)
  /-- The C string found in a `char` buffer (consumed by `%s`). -/
  | str (s : List Nat)
  deriving DecidableEq

/-- A call of an external function, with the argument values the program
passes (pointer arguments that are `NULL` in the source are left out, output
pointers are described by the answer), or an assignment to a global of an
external library. -/
inductive Call where
  | glfwInit
  | glfwTerminate
  | glfwWindowHint (hint value : Nat)
  | glfwCreateWindow (width height : Int) (title : String)
  | glfwGetFramebufferSize (window : Nat)
  | glfwMakeContextCurrent (window : Nat)
  /-- The assignment `glewExperimental = value` to the global of GLEW. -/
  | glewExperimental (value : Nat)
  | glewInit
  | glfwDestroyWindow (window : Nat)
  | glfwWindowShouldClose (window : Nat)
  | glfwPollEvents
  | glfwSwapBuffers (window : Nat)
  | glViewport (x y width height : Int)
  | glClearColor (red green blue alpha : Int)
  | glClear (mask : Nat)
  | glUseProgram (program : Nat)
  | glDrawArrays (mode : Nat) (first count : Int)
  | glGenVertexArrays (n : Int)
  | glBindVertexArray (array : Nat)
  | glGenBuffers (n : Int)
  | glBindBuffer (target buffer : Nat)
  | glBufferData (target size : Nat) (data : List Int) (usage : Nat)
  | glVertexAttribPointer (index : Nat) (size : Int) (type normalized : Nat)
      (stride : Int) (pointer : Nat)
  | glEnableVertexAttribArray (index : Nat)
  | glCreateShader (type : Nat)
  | glShaderSource (shader : Nat) (count : Int) (string : List String) (length : List Int)
  | glCompileShader (shader : Nat)
  | glGetShaderiv (shader pname : Nat)
  | glGetShaderInfoLog (shader bufSize : Nat)
  | glAttachShader (program shader : Nat)
  | glCreateProgram
  | glLinkProgram (program : Nat)
  | glValidateProgram (program : Nat)
  | glGetProgramiv (program pname : Nat)
  | glGetProgramInfoLog (program bufSize : Nat)
  | printf (format : String) (args : List PrintfArg)
  deriving DecidableEq

/-- What the program observes of a call once it has returned. -/
inductive Resp where
  /-- Nothing is read back. -/
  | none
  /-- The return value, or the name stored through a `GLuint*`. -/
  | value (v : Nat)
  /-- The value held by the `GLint` output variable after the call. -/
  | stored (v : Int)
  /-- The two integers stored by `glfwGetFramebufferSize`. -/
  | size (width height : Int)
  /-- The contents of the `GLchar` buffer after the call. -/
  | log (buf : List Nat)
  deriving DecidableEq

/-- One entry of the trace: a call and what the program observed of it. -/
structure Event where
  call : Call
  resp : Resp
  deriving DecidableEq

/-- The external collaborators (GLFW, GLEW, the GL driver).  Each field
answers a call given the whole history of earlier events. -/
structure Device where
  /-- The return value of a call (handles, booleans, pointers, status codes);
  for `glGen*` the name stored through the pointer. -/
  value : List Event → Call → Nat
  /-- What `glGet*iv` stores through its `GLint*`; `none` when the call stores
  nothing (it raised a GL error) and the variable keeps its value. -/
  stored : List Event → Call → Option Int
  /-- The framebuffer size stored by `glfwGetFramebufferSize`. -/
  size : List Event → Call → Int × Int
  /-- The information log the device holds for the object a
  `glGet*InfoLog` call names; `none` when the name is not an object of the
  kind asked for (a GL error is raised and the buffer is left untouched). -/
  infoLog : List Event → Call → Option (List Nat)

/-- The globals `VAO`, `VBO`, `shader` and the trace of calls made so far. -/
structure World where
  VAO : Nat
  VBO : Nat
  shader : Nat
  trace : List Event

/-- State at process start: globals are zero-initialised, nothing was called. -/
def World.init : World := ⟨0, 0, 0, []⟩

/-- Append one event to the trace. -/
def World.emit (w : World) (c : Call) (r : Resp) : World :=
  { w with trace := w.trace ++ [⟨c, r⟩] }

/-- A call whose result the program does not read. -/
def callVoid (c : Call) (w : World) : World :=
  w.emit c Resp.none

/-- A call whose return value (or stored name) the program reads. -/
def callValue (d : Device) (c : Call) (w : World) : Nat × World :=
  let v := d.value w.trace c
  (v, w.emit c (Resp.value v))

/-- A `glGet*iv(obj, pname, &result)` call: `result` holds what the device
stores, or its previous value when nothing is stored. -/
def callGetiv (d : Device) (c : Call) (result : Int) (w : World) : Int × World :=
  let r := (d.stored w.trace c).getD result
  (r, w.emit c (Resp.stored r))

/-- The call `glfwGetFramebufferSize(window, &width, &height)`. -/
def callSize (d : Device) (c : Call) (w : World) : (Int × Int) × World :=
  let s := d.size w.trace c
  (s, w.emit c (Resp.size s.1 s.2))

/-- Effect of `glGet*InfoLog(obj, bufSize, NULL, buf)` on `buf`: the device
copies as much of the log as fits in `bufSize` characters including the null
terminator; on a GL error nothing is written. -/
def writeInfoLog (bufSize : Nat) (log : Option (List Nat)) (buf : List Nat) : List Nat :=
  match log with
  | Option.none => buf
  | some l =>
    if bufSize = 0 then buf
    else (l.take (bufSize - 1)) ++ [0] ++ buf.drop ((l.take (bufSize - 1)).length + 1)

/-- A `glGet*InfoLog(obj, bufSize, NULL, eLog)` call. -/
def callInfoLog (d : Device) (c : Call) (bufSize : Nat) (eLog : List Nat) (w : World) :
    List Nat × World :=
  let buf := writeInfoLog bufSize (d.infoLog w.trace c) eLog
  (buf, w.emit c (Resp.log buf))

/-- The C string stored in a `char` buffer: the characters before the first
null. -/
def cstr (buf : List Nat) : List Nat :=
  buf.takeWhile (fun c => c != 0)

/-- The function `strlen` on a source string without embedded nulls. -/
def strlen (s : String) : Nat := s.utf8ByteSize

/-- Conversion of a `size_t` to `GLint` (32-bit two's complement). -/
def toGLint (n : Nat) : Int :=
  if n % 2 ^ 32 < 2 ^ 31 then (n % 2 ^ 32 : Nat) else (n % 2 ^ 32 : Nat) - 2 ^ 32

/-! ## The functions of `main.cpp` -/

/-- The function `CreateTriangle` (lines 32-63). -/
def CreateTriangle (d : Device) (w : World) : World :=
  let (name, w) := callValue d (Call.glGenVertexArrays 1) w
  let w := { w with VAO := name }
  let w := callVoid (Call.glBindVertexArray w.VAO) w
  let (name, w) := callValue d (Call.glGenBuffers 1) w
  let w := { w with VBO := name }
  let w := callVoid (Call.glBindBuffer GL_ARRAY_BUFFER w.VBO) w
  let w := callVoid (Call.glBufferData GL_ARRAY_BUFFER (vertices.length * sizeofGLfloat)
    vertices GL_STATIC_DRAW) w
  let w := callVoid (Call.glVertexAttribPointer 0 3 GL_FLOAT GL_FALSE 0 0) w
  let w := callVoid (Call.glEnableVertexAttribArray 0) w
  let w := callVoid (Call.glBindBuffer GL_ARRAY_BUFFER 0) w
  callVoid (Call.glBindVertexArray 0) w

/-- The function `AddShader` (lines 65-99). -/
def AddShader (d : Device) (theProgram : Nat) (shaderCode : String) (shaderType : Nat)
    (w : World) : World :=
  let (theShader, w) := callValue d (Call.glCreateShader shaderType) w
  let theCode : List String := [shaderCode]
  let codeLength : List Int := [toGLint (strlen shaderCode)]
  let w := callVoid (Call.glShaderSource theShader 1 theCode codeLength) w
  let w := callVoid (Call.glCompileShader theShader) w
  let result : Int := 0
  let eLog : List Nat := List.replicate sizeofELog 0
  let (result, w) := callGetiv d (Call.glGetShaderiv theShader GL_COMPILE_STATUS) result w
  if result = 0 then
    -- line 92: the object named is the global `shader`
    let (eLog, w) := callInfoLog d (Call.glGetShaderInfoLog w.shader sizeofELog) sizeofELog eLog w
    callVoid (Call.printf "Error compiling the %d shader: '%s'\n"
      [PrintfArg.num shaderType, PrintfArg.str (cstr eLog)]) w
  else
    callVoid (Call.glAttachShader theProgram theShader) w

/-- The function `CompileShaders` (lines 101-140). -/
def CompileShaders (d : Device) (w : World) : World :=
  let (name, w) := callValue d Call.glCreateProgram w
  let w := { w with shader := name }
  if w.shader = 0 then
    callVoid (Call.printf "Error creating shader program" []) w
  else
    let w := AddShader d w.shader vShader GL_VERTEX_SHADER w
    let w := AddShader d w.shader fShader GL_FRAGMENT_SHADER w
    let result : Int := 0
    let eLog : List Nat := List.replicate sizeofELog 0
    let w := callVoid (Call.glLinkProgram w.shader) w
    let (result, w) := callGetiv d (Call.glGetProgramiv w.shader GL_LINK_STATUS) result w
    if result = 0 then
      let (eLog, w) := callInfoLog d (Call.glGetProgramInfoLog w.shader sizeofELog) sizeofELog eLog w
      callVoid (Call.printf "Error linking program: '%s'\n" [PrintfArg.str (cstr eLog)]) w
    else
      let w := callVoid (Call.glValidateProgram w.shader) w
      let (result, w) := callGetiv d (Call.glGetProgramiv w.shader GL_VALIDATE_STATUS) result w
      if result = 0 then
        let (eLog, w) := callInfoLog d (Call.glGetProgramInfoLog w.shader sizeofELog) sizeofELog eLog w
        callVoid (Call.printf "Error validating program: '%s'\n" [PrintfArg.str (cstr eLog)]) w
      else
        w

/-- The body of the `while` loop of `main` (lines 194-213). -/
def frame (mainWindow : Nat) (w : World) : World :=
  let w := callVoid Call.glfwPollEvents w
  let w := callVoid (Call.glClearColor 0 0 0 1) w
  let w := callVoid (Call.glClear GL_COLOR_BUFFER_BIT) w
  let w := callVoid (Call.glUseProgram w.shader) w
  let w := callVoid (Call.glBindVertexArray w.VAO) w
  let w := callVoid (Call.glDrawArrays GL_TRIANGLES 0 3) w
  let w := callVoid (Call.glBindVertexArray 0) w
  let w := callVoid (Call.glUseProgram 0) w
  callVoid (Call.glfwSwapBuffers mainWindow) w

/-- The loop `while (!glfwWindowShouldClose(mainWindow)) { ... }` of `main`
(line 193), run for at most `fuel` evaluations of its condition.  The Boolean
tells whether the loop was left. -/
def frameLoop (d : Device) (mainWindow : Nat) : Nat → World → Bool × World
  | 0, w => (false, w)
  | fuel + 1, w =>
    let (close, w) := callValue d (Call.glfwWindowShouldClose mainWindow) w
    if close = 0 then frameLoop d mainWindow fuel (frame mainWindow w)
    else (true, w)

/-- How the start-up part of `main` ends: with a `return` of an exit status,
or at the loop with the window created. -/
inductive Startup where
  | exit (status : Int) (w : World)
  | ready (mainWindow : Nat) (w : World)

/-- Lines 144-190 of `main`: everything before the `while` loop. -/
def startup (d : Device) : Startup :=
  let w := World.init
  let (ok, w) := callValue d Call.glfwInit w
  if ok = 0 then
    let w := callVoid (Call.printf "GLFW Initialisation failed" []) w
    let w := callVoid Call.glfwTerminate w
    Startup.exit 1 w
  else
    let w := callVoid (Call.glfwWindowHint GLFW_CONTEXT_VERSION_MAJOR 3) w
    let w := callVoid (Call.glfwWindowHint GLFW_CONTEXT_VERSION_MINOR 3) w
    let w := callVoid (Call.glfwWindowHint GLFW_OPENGL_PROFILE GLFW_OPENGL_CORE_PROFILE) w
    let w := callVoid (Call.glfwWindowHint GLFW_OPENGL_FORWARD_COMPAT GL_TRUE) w
    let (mainWindow, w) := callValue d (Call.glfwCreateWindow WIDTH HEIGHT "Test Window") w
    if mainWindow = 0 then
      let w := callVoid (Call.printf "GLFW window creation failed!" []) w
      Startup.exit 1 w
    else
      let (bufferSize, w) := callSize d (Call.glfwGetFramebufferSize mainWindow) w
      let w := callVoid (Call.glfwMakeContextCurrent mainWindow) w
      let w := callVoid (Call.glewExperimental GL_TRUE) w
      let (status, w) := callValue d Call.glewInit w
      if status ≠ GLEW_OK then
        let w := callVoid (Call.printf "GLEW initialisation failed!" []) w
        let w := callVoid (Call.glfwDestroyWindow mainWindow) w
        let w := callVoid Call.glfwTerminate w
        Startup.exit 1 w
      else
        let w := callVoid (Call.glViewport 0 0 bufferSize.1 bufferSize.2) w
        let w := CreateTriangle d w
        let w := CompileShaders d w
        Startup.ready mainWindow w

/-- The function `main` (lines 142-217): the exit status (`none` when the
frame loop is still running after `fuel` evaluations of its condition) and the
final state. -/
def main (d : Device) (fuel : Nat) : Option Int × World :=
  match startup d with
  | Startup.exit status w => (some status, w)
  | Startup.ready mainWindow w =>
    let (left, w) := frameLoop d mainWindow fuel w
    if left then (some 0, w) else (none, w)

/-- State in which the loop condition is evaluated for the `k+1`-th time when
the loop is entered in `w` and the first `k` evaluations let it continue. -/
def loopHead (d : Device) (mainWindow : Nat) : Nat → World → World
  | 0, w => w
  | k + 1, w =>
    loopHead d mainWindow k (frame mainWindow (callValue d (Call.glfwWindowShouldClose mainWindow) w).2)

/-- The answer of `glfwWindowShouldClose` at the `k+1`-th evaluation of the
loop condition. -/
def closeAnswer (d : Device) (mainWindow : Nat) (w : World) (k : Nat) : Nat :=
  d.value (loopHead d mainWindow k w).trace (Call.glfwWindowShouldClose mainWindow)

/-! ## Vocabulary for statements about traces -/

/-- Events appended to the trace on the way from `w` to `w1`. -/
def emitted (w w1 : World) : List Event :=
  w1.trace.drop w.trace.length

/-- The calls of a list of events that satisfy `p`, in order. -/
def callsWhere (p : Call → Bool) (evs : List Event) : List Call :=
  (evs.map Event.call).filter p

/-- Calls of `glAttachShader`. -/
def Call.isAttach : Call → Bool
  | Call.glAttachShader _ _ => true
  | _ => false

/-- Calls of `printf`. -/
def Call.isPrintf : Call → Bool
  | Call.printf _ _ => true
  | _ => false

/-- Calls of `printf` with the format string `fmt`. -/
def Call.printsFormat (fmt : String) : Call → Bool
  | Call.printf f _ => f == fmt
  | _ => false

/-- Calls of `glDrawArrays`. -/
def Call.isDraw : Call → Bool
  | Call.glDrawArrays _ _ _ => true
  | _ => false

/-- Calls of `glGenVertexArrays`. -/
def Call.isGenVertexArrays : Call → Bool
  | Call.glGenVertexArrays _ => true
  | _ => false

/-- The three start-up calls whose failure `main` checks. -/
def Call.isInit : Call → Bool
  | Call.glfwInit => true
  | Call.glfwCreateWindow _ _ _ => true
  | Call.glewInit => true
  | _ => false

/-- The steps that build the stages of a program and link them: creation,
source upload, compilation, status query and attachment of a stage, and
`glLinkProgram`. -/
def Call.isStageStep : Call → Bool
  | Call.glCreateShader _ => true
  | Call.glShaderSource _ _ _ _ => true
  | Call.glCompileShader _ => true
  | Call.glGetShaderiv _ _ => true
  | Call.glAttachShader _ _ => true
  | Call.glLinkProgram _ => true
  | _ => false

/-- The calls made from the frame loop of `main`, its condition included. -/
def Call.isFrame : Call → Bool
  | Call.glfwWindowShouldClose _ => true
  | Call.glfwPollEvents => true
  | Call.glClearColor _ _ _ _ => true
  | Call.glClear _ => true
  | Call.glUseProgram _ => true
  | Call.glBindVertexArray _ => true
  | Call.glDrawArrays _ _ _ => true
  | Call.glfwSwapBuffers _ => true
  | _ => false

/-- The calls made from `CreateTriangle`. -/
def Call.isGeometry : Call → Bool
  | Call.glGenVertexArrays _ => true
  | Call.glBindVertexArray _ => true
  | Call.glGenBuffers _ => true
  | Call.glBindBuffer _ _ => true
  | Call.glBufferData _ _ _ _ => true
  | Call.glVertexAttribPointer _ _ _ _ _ _ => true
  | Call.glEnableVertexAttribArray _ => true
  | _ => false

/-- The OpenGL calls made from `CompileShaders` and `AddShader`. -/
def Call.isBuild : Call → Bool
  | Call.glCreateProgram => true
  | Call.glCreateShader _ => true
  | Call.glShaderSource _ _ _ _ => true
  | Call.glCompileShader _ => true
  | Call.glGetShaderiv _ _ => true
  | Call.glGetShaderInfoLog _ _ => true
  | Call.glAttachShader _ _ => true
  | Call.glLinkProgram _ => true
  | Call.glValidateProgram _ => true
  | Call.glGetProgramiv _ _ => true
  | Call.glGetProgramInfoLog _ _ => true
  | _ => false

/-- Every call that `main` makes only once start-up has succeeded: the calls
of `CreateTriangle`, of `CompileShaders`, `glViewport`, and those of the frame
loop. -/
def Call.isRendering (c : Call) : Bool :=
  c.isGeometry || c.isBuild || c.isFrame ||
    (match c with
     | Call.glViewport _ _ _ _ => true
     | _ => false)

/-- The vertex array bound after a sequence of events: the argument of the
last `glBindVertexArray`, `0` when there is none. -/
def boundVertexArray (evs : List Event) : Nat :=
  evs.foldl (fun b e =>
    match e.call with
    | Call.glBindVertexArray a => a
    | _ => b) 0

/-- The buffer bound to `target` after a sequence of events. -/
def boundBuffer (target : Nat) (evs : List Event) : Nat :=
  evs.foldl (fun b e =>
    match e.call with
    | Call.glBindBuffer t a => if t = target then a else b
    | _ => b) 0

/-- The buffer `eLog` after an information-log query answered with `log`. -/
def eLogAfter (log : Option (List Nat)) : List Nat :=
  writeInfoLog sizeofELog log (List.replicate sizeofELog 0)

/-- The events of `CreateTriangle` when the device names the vertex array `a`
and the buffer `b`. -/
def triangleEvents (a b : Nat) : List Event :=
  [⟨Call.glGenVertexArrays 1, Resp.value a⟩,
   ⟨Call.glBindVertexArray a, Resp.none⟩,
   ⟨Call.glGenBuffers 1, Resp.value b⟩,
   ⟨Call.glBindBuffer GL_ARRAY_BUFFER b, Resp.none⟩,
   ⟨Call.glBufferData GL_ARRAY_BUFFER 36 [-1, -1, 0, 1, -1, 0, 0, 1, 0] GL_STATIC_DRAW, Resp.none⟩,
   ⟨Call.glVertexAttribPointer 0 3 GL_FLOAT GL_FALSE 0 0, Resp.none⟩,
   ⟨Call.glEnableVertexAttribArray 0, Resp.none⟩,
   ⟨Call.glBindBuffer GL_ARRAY_BUFFER 0, Resp.none⟩,
   ⟨Call.glBindVertexArray 0, Resp.none⟩]

/-- The events of one run of `AddShader` in which the device answers
`theShader` to `glCreateShader`, leaves `result` in the status variable and
holds `log` for the object named in the information-log query; `shader` is the
value of the global of that name. -/
def stageEvents (shader theProgram : Nat) (shaderCode : String) (shaderType theShader : Nat)
    (result : Int) (log : Option (List Nat)) : List Event :=
  [⟨Call.glCreateShader shaderType, Resp.value theShader⟩,
   ⟨Call.glShaderSource theShader 1 [shaderCode] [toGLint (strlen shaderCode)], Resp.none⟩,
   ⟨Call.glCompileShader theShader, Resp.none⟩,
   ⟨Call.glGetShaderiv theShader GL_COMPILE_STATUS, Resp.stored result⟩] ++
  (if result = 0 then
    [⟨Call.glGetShaderInfoLog shader sizeofELog, Resp.log (eLogAfter log)⟩,
     ⟨Call.printf "Error compiling the %d shader: '%s'\n"
        [PrintfArg.num shaderType, PrintfArg.str (cstr (eLogAfter log))], Resp.none⟩]
   else [⟨Call.glAttachShader theProgram theShader, Resp.none⟩])

/-- The events of `CompileShaders` from `glLinkProgram` on, for a program
`p`, link status `link` and validate status `validate`. -/
def linkEvents (p : Nat) (link : Int) (linkLog : Option (List Nat)) (validate : Int)
    (validateLog : Option (List Nat)) : List Event :=
  [⟨Call.glLinkProgram p, Resp.none⟩,
   ⟨Call.glGetProgramiv p GL_LINK_STATUS, Resp.stored link⟩] ++
  (if link = 0 then
    [⟨Call.glGetProgramInfoLog p sizeofELog, Resp.log (eLogAfter linkLog)⟩,
     ⟨Call.printf "Error linking program: '%s'\n"
        [PrintfArg.str (cstr (eLogAfter linkLog))], Resp.none⟩]
   else
    [⟨Call.glValidateProgram p, Resp.none⟩,
     ⟨Call.glGetProgramiv p GL_VALIDATE_STATUS, Resp.stored validate⟩] ++
    (if validate = 0 then
      [⟨Call.glGetProgramInfoLog p sizeofELog, Resp.log (eLogAfter validateLog)⟩,
       ⟨Call.printf "Error validating program: '%s'\n"
          [PrintfArg.str (cstr (eLogAfter validateLog))], Resp.none⟩]
     else []))

/-- The events of one pass through the loop body. -/
def frameEvents (mainWindow shader VAO : Nat) : List Event :=
  [⟨Call.glfwPollEvents, Resp.none⟩,
   ⟨Call.glClearColor 0 0 0 1, Resp.none⟩,
   ⟨Call.glClear GL_COLOR_BUFFER_BIT, Resp.none⟩,
   ⟨Call.glUseProgram shader, Resp.none⟩,
   ⟨Call.glBindVertexArray VAO, Resp.none⟩,
   ⟨Call.glDrawArrays GL_TRIANGLES 0 3, Resp.none⟩,
   ⟨Call.glBindVertexArray 0, Resp.none⟩,
   ⟨Call.glUseProgram 0, Resp.none⟩,
   ⟨Call.glfwSwapBuffers mainWindow, Resp.none⟩]

/-- The events of a loop that runs `n` passes and is then left on the answer
`v` of `glfwWindowShouldClose`. -/
def loopEvents (mainWindow shader VAO n v : Nat) : List Event :=
  (List.replicate n (⟨Call.glfwWindowShouldClose mainWindow, Resp.value 0⟩ ::
    frameEvents mainWindow shader VAO)).flatten ++
  [⟨Call.glfwWindowShouldClose mainWindow, Resp.value v⟩]

/-- In `evs` every draw call is `glDrawArrays(GL_TRIANGLES, 0, 3)` and is
issued while the vertex array `a` is bound. -/
def DrawsTriangleOf (a : Nat) (evs : List Event) : Prop :=
  ∀ i e, evs[i]? = some e → e.call.isDraw = true →
    e.call = Call.glDrawArrays GL_TRIANGLES 0 3 ∧ boundVertexArray (evs.take i) = a

/-! ## A concrete device

A driver described by a handful of answers: it hands out the names `1` (vertex
array, buffer, program, window), `2` (vertex stage) and `3` (fragment stage),
reports the scripted statuses, holds the log `log` for the two stages and for
the program, and asks to close the window once `frames` frames were presented.
-/

/-- The answers that describe a concrete device. -/
structure Script where
  glfwInit : Nat
  window : Nat
  glewInit : Nat
  program : Nat
  vertexStatus : Int
  fragmentStatus : Int
  linkStatus : Int
  validateStatus : Int
  log : List Nat
  frames : Nat

/-- Number of frames presented in a history. -/
def presented (h : List Event) : Nat :=
  h.countP (fun e =>
    match e.call with
    | Call.glfwSwapBuffers _ => true
    | _ => false)

/-- The device that follows a script. -/
def Script.device (s : Script) : Device where
  value h c :=
    match c with
    | Call.glfwInit => s.glfwInit
    | Call.glfwCreateWindow _ _ _ => s.window
    | Call.glewInit => s.glewInit
    | Call.glfwWindowShouldClose _ => if s.frames ≤ presented h then 1 else 0
    | Call.glGenVertexArrays _ => 1
    | Call.glGenBuffers _ => 1
    | Call.glCreateProgram => s.program
    | Call.glCreateShader t => if t = GL_VERTEX_SHADER then 2 else 3
    | _ => 0
  stored _ c :=
    match c with
    | Call.glGetShaderiv sh pname =>
      if pname = GL_COMPILE_STATUS then
        if sh = 2 then some s.vertexStatus
        else if sh = 3 then some s.fragmentStatus
        else none
      else none
    | Call.glGetProgramiv p pname =>
      if p = s.program ∧ p ≠ 0 then
        if pname = GL_LINK_STATUS then some s.linkStatus
        else if pname = GL_VALIDATE_STATUS then some s.validateStatus
        else none
      else none
    | _ => none
  size _ _ := (WIDTH, HEIGHT)
  infoLog _ c :=
    match c with
    | Call.glGetShaderInfoLog sh _ => if sh = 2 ∨ sh = 3 then some s.log else none
    | Call.glGetProgramInfoLog p _ => if p = s.program ∧ p ≠ 0 then some s.log else none
    | _ => none

/-- The script of a run in which everything succeeds and the window is closed
after two frames; its log reads `ERR`. -/
def Script.ok : Script :=
  { glfwInit := 1, window := 1, glewInit := GLEW_OK, program := 1, vertexStatus := 1,
    fragmentStatus := 1, linkStatus := 1, validateStatus := 1, log := [69, 82, 82], frames := 2 }

/-- State of `main` at the loop for the device of a script. -/
def Script.atLoop (s : Script) : World :=
  match startup s.device with
  | Startup.exit _ w => w
  | Startup.ready _ w => w

/-- The events of `main` up to the four window hints, `ok` being the answer
of `glfwInit`. -/
def initEvents (ok : Nat) : List Event :=
  [⟨Call.glfwInit, Resp.value ok⟩,
   ⟨Call.glfwWindowHint GLFW_CONTEXT_VERSION_MAJOR 3, Resp.none⟩,
   ⟨Call.glfwWindowHint GLFW_CONTEXT_VERSION_MINOR 3, Resp.none⟩,
   ⟨Call.glfwWindowHint GLFW_OPENGL_PROFILE GLFW_OPENGL_CORE_PROFILE, Resp.none⟩,
   ⟨Call.glfwWindowHint GLFW_OPENGL_FORWARD_COMPAT GL_TRUE, Resp.none⟩]

/-- The events of `main` from the creation of the window `mainWindow` to
`glewInit`, which answers `status`. -/
def contextEvents (mainWindow : Nat) (width height : Int) (status : Nat) : List Event :=
  [⟨Call.glfwCreateWindow WIDTH HEIGHT "Test Window", Resp.value mainWindow⟩,
   ⟨Call.glfwGetFramebufferSize mainWindow, Resp.size width height⟩,
   ⟨Call.glfwMakeContextCurrent mainWindow, Resp.none⟩,
   ⟨Call.glewExperimental GL_TRUE, Resp.none⟩,
   ⟨Call.glewInit, Resp.value status⟩]

/-- The validation step of `CompileShaders`: `glValidateProgram` and the
query of `GL_VALIDATE_STATUS`. -/
def Call.isValidateStep : Call → Bool
  | Call.glValidateProgram _ => true
  | Call.glGetProgramiv _ pname => pname == GL_VALIDATE_STATUS
  | _ => false

/-- Every information-log query in `evs` is given the length 1024 and a
zero-initialised buffer of 1024 characters, and every text printed through a
`%s` is the C string of the buffer of such a query: it has at most 1023
characters and is followed in the buffer by a null. -/
def BoundedDiagnostics (evs : List Event) : Prop :=
  (∀ obj n buf,
    ((⟨Call.glGetShaderInfoLog obj n, Resp.log buf⟩ : Event) ∈ evs ∨
      (⟨Call.glGetProgramInfoLog obj n, Resp.log buf⟩ : Event) ∈ evs) →
    n = 1024 ∧ ∃ log, buf = writeInfoLog 1024 log (List.replicate 1024 0)) ∧
  (∀ e ∈ evs, ∀ fmt args s, e.call = Call.printf fmt args → PrintfArg.str s ∈ args →
    s.length ≤ 1023 ∧
    ∃ obj buf,
      ((⟨Call.glGetShaderInfoLog obj 1024, Resp.log buf⟩ : Event) ∈ evs ∨
        (⟨Call.glGetProgramInfoLog obj 1024, Resp.log buf⟩ : Event) ∈ evs) ∧
      s = cstr buf ∧ buf.length = 1024 ∧ buf[s.length]? = some 0)

/-- Calls of `glUseProgram` and `glDrawArrays`. -/
def Call.isUseOrDraw : Call → Bool
  | Call.glUseProgram _ => true
  | Call.glDrawArrays _ _ _ => true
  | _ => false

/-- Calls of `glGetShaderInfoLog` and `glGetProgramInfoLog`. -/
def Call.isInfoLog : Call → Bool
  | Call.glGetShaderInfoLog _ _ => true
  | Call.glGetProgramInfoLog _ _ => true
  | _ => false

/-- A run in which the vertex stage fails to compile. -/
def Script.vertexFails : Script := { Script.ok with vertexStatus := 0 }

/-- A run in which linking fails. -/
def Script.linkFails : Script := { Script.ok with linkStatus := 0 }

/-- A run in which the vertex stage fails to compile and linking fails. -/
def Script.buildFails : Script := { Script.ok with vertexStatus := 0, linkStatus := 0 }

/-- A run in which no program can be allocated. -/
def Script.noProgram : Script := { Script.ok with program := 0 }

/-- A run in which `glfwInit` fails. -/
def Script.noGlfw : Script := { Script.ok with glfwInit := 0 }

/-- A run in which no window can be created. -/
def Script.noWindow : Script := { Script.ok with window := 0 }

/-- A run in which `glewInit` fails (`1` is `GLEW_ERROR_NO_GL_VERSION`). -/
def Script.noGlew : Script := { Script.ok with glewInit := 1 }

/-- A run in which linking fails and the log has 2000 characters. -/
def Script.longLog : Script := { Script.ok with linkStatus := 0, log := List.replicate 2000 65 }

/-- The answer of `glfwInit`, the first call of `main`. -/
def glfwInitAnswer (d : Device) : Nat :=
  d.value [] Call.glfwInit

/-- The answer of `glfwCreateWindow` when `glfwInit` has succeeded. -/
def windowAnswer (d : Device) : Nat :=
  d.value (initEvents (glfwInitAnswer d)) (Call.glfwCreateWindow WIDTH HEIGHT "Test Window")

/-- The framebuffer size reported for the window. -/
def sizeAnswer (d : Device) : Int × Int :=
  d.size (initEvents (glfwInitAnswer d) ++
      [⟨Call.glfwCreateWindow WIDTH HEIGHT "Test Window", Resp.value (windowAnswer d)⟩])
    (Call.glfwGetFramebufferSize (windowAnswer d))

/-- The answer of `glewInit` when the window has been created. -/
def glewInitAnswer (d : Device) : Nat :=
  d.value (initEvents (glfwInitAnswer d) ++
      [⟨Call.glfwCreateWindow WIDTH HEIGHT "Test Window", Resp.value (windowAnswer d)⟩,
       ⟨Call.glfwGetFramebufferSize (windowAnswer d),
         Resp.size (sizeAnswer d).1 (sizeAnswer d).2⟩,
       ⟨Call.glfwMakeContextCurrent (windowAnswer d), Resp.none⟩,
       ⟨Call.glewExperimental GL_TRUE, Resp.none⟩])
    Call.glewInit

/-- The state after `glViewport` (line 187) in a run whose three start-up
checks pass: nothing but the window, context and GLEW calls has happened. -/
def beforeGeometry (d : Device) : World :=
  ⟨0, 0, 0,
    initEvents (glfwInitAnswer d) ++
      contextEvents (windowAnswer d) (sizeAnswer d).1 (sizeAnswer d).2 (glewInitAnswer d) ++
      [⟨Call.glViewport 0 0 (sizeAnswer d).1 (sizeAnswer d).2, Resp.none⟩]⟩

/-- The state once `CreateTriangle` and `CompileShaders` have run on
`beforeGeometry` (lines 189-190), whatever `CompileShaders` did. -/
def afterBuild (d : Device) : World :=
  CompileShaders d (CreateTriangle d (beforeGeometry d))

/-- The calls that create or fill the vertex array and its buffer: generation
of names, binding of a buffer, upload of data, declaration and enabling of an
attribute. -/
def Call.isUpload : Call → Bool
  | Call.glGenVertexArrays _ => true
  | Call.glGenBuffers _ => true
  | Call.glBindBuffer _ _ => true
  | Call.glBufferData _ _ _ _ => true
  | Call.glVertexAttribPointer _ _ _ _ _ _ => true
  | Call.glEnableVertexAttribArray _ => true
  | _ => false

/-- A run in which validation of the linked program fails. -/
def Script.validateFails : Script := { Script.ok with validateStatus := 0 }

/-! ## Traces of the functions -/

theorem emitted_of_trace {w w1 : World} {evs : List Event} (h : w1.trace = w.trace ++ evs) :
    emitted w w1 = evs := by
  simp [emitted, h]

theorem callsWhere_append (p : Call → Bool) (l1 l2 : List Event) :
    callsWhere p (l1 ++ l2) = callsWhere p l1 ++ callsWhere p l2 := by
  simp [callsWhere]

theorem callsWhere_flatten_replicate (p : Call → Bool) (n : Nat) (l : List Event) :
    callsWhere p (List.replicate n l).flatten = (List.replicate n (callsWhere p l)).flatten := by
  induction n with
  | zero => simp [callsWhere]
  | succ n ih => simp [List.replicate_succ, callsWhere_append, ih]

theorem CreateTriangle_trace (d : Device) (w : World) :
    ∃ b, (CreateTriangle d w).trace =
        w.trace ++ triangleEvents (d.value w.trace (Call.glGenVertexArrays 1)) b ∧
      (CreateTriangle d w).VAO = d.value w.trace (Call.glGenVertexArrays 1) ∧
      (CreateTriangle d w).VBO = b ∧ (CreateTriangle d w).shader = w.shader := by
  refine ⟨d.value (w.trace ++ [⟨Call.glGenVertexArrays 1,
      Resp.value (d.value w.trace (Call.glGenVertexArrays 1))⟩,
    ⟨Call.glBindVertexArray (d.value w.trace (Call.glGenVertexArrays 1)), Resp.none⟩])
    (Call.glGenBuffers 1), ?_⟩
  simp [CreateTriangle, callValue, callVoid, World.emit, triangleEvents, vertices,
    sizeofGLfloat]

theorem AddShader_trace (d : Device) (theProgram : Nat) (shaderCode : String)
    (shaderType : Nat) (w : World) :
    ∃ result log,
      (AddShader d theProgram shaderCode shaderType w).trace = w.trace ++
        stageEvents w.shader theProgram shaderCode shaderType
          (d.value w.trace (Call.glCreateShader shaderType)) result log := by
  simp only [AddShader, callValue, callGetiv, callInfoLog, callVoid, World.emit, stageEvents,
    eLogAfter]
  generalize (d.stored _ _).getD 0 = r
  by_cases h : r = 0
  · subst h
    simp only [if_true]
    generalize d.infoLog _ _ = l
    exact ⟨0, l, by simp⟩
  · exact ⟨r, none, by simp [h]⟩

theorem AddShader_globals (d : Device) (theProgram : Nat) (shaderCode : String)
    (shaderType : Nat) (w : World) :
    (AddShader d theProgram shaderCode shaderType w).shader = w.shader ∧
    (AddShader d theProgram shaderCode shaderType w).VAO = w.VAO ∧
    (AddShader d theProgram shaderCode shaderType w).VBO = w.VBO := by
  simp only [AddShader, callValue, callGetiv, callInfoLog, callVoid, World.emit]
  split <;> simp

theorem CompileShaders_globals (d : Device) (w : World) :
    (CompileShaders d w).shader = d.value w.trace Call.glCreateProgram ∧
    (CompileShaders d w).VAO = w.VAO ∧ (CompileShaders d w).VBO = w.VBO := by
  simp only [CompileShaders, callValue, callGetiv, callInfoLog, callVoid, World.emit]
  split
  · simp
  · split
    · simp [AddShader_globals]
    · split <;> simp [AddShader_globals]

theorem CompileShaders_trace_zero (d : Device) (w : World)
    (h : d.value w.trace Call.glCreateProgram = 0) :
    (CompileShaders d w).trace = w.trace ++
      [⟨Call.glCreateProgram, Resp.value 0⟩,
       ⟨Call.printf "Error creating shader program" [], Resp.none⟩] := by
  simp [CompileShaders, callValue, callVoid, World.emit, h]

theorem CompileShaders_trace_pos (d : Device) (w : World)
    (h : d.value w.trace Call.glCreateProgram ≠ 0) :
    ∃ sv rv lv sf rf lf link linkLog validate validateLog,
      (CompileShaders d w).trace = w.trace ++
        (⟨Call.glCreateProgram, Resp.value (d.value w.trace Call.glCreateProgram)⟩ ::
          (stageEvents (d.value w.trace Call.glCreateProgram)
              (d.value w.trace Call.glCreateProgram) vShader GL_VERTEX_SHADER sv rv lv ++
           stageEvents (d.value w.trace Call.glCreateProgram)
              (d.value w.trace Call.glCreateProgram) fShader GL_FRAGMENT_SHADER sf rf lf ++
           linkEvents (d.value w.trace Call.glCreateProgram) link linkLog validate
              validateLog)) := by
  generalize hp : d.value w.trace Call.glCreateProgram = p at h
  simp only [CompileShaders, callValue, callGetiv, callInfoLog, callVoid, World.emit, hp,
    if_neg h]
  generalize hw1 : (World.mk w.VAO w.VBO p
    (w.trace ++ [Event.mk Call.glCreateProgram (Resp.value p)])) = w1
  have hs1 : w1.shader = p := by rw [← hw1]
  have ht1 : w1.trace = w.trace ++ [⟨Call.glCreateProgram, Resp.value p⟩] := by rw [← hw1]
  obtain ⟨rv, lv, hv⟩ := AddShader_trace d p vShader GL_VERTEX_SHADER w1
  have hs2 := (AddShader_globals d p vShader GL_VERTEX_SHADER w1).1
  rw [hs1] at hs2 hv
  simp only [hs2]
  generalize d.value w1.trace (Call.glCreateShader GL_VERTEX_SHADER) = sv at hv
  generalize AddShader d p vShader GL_VERTEX_SHADER w1 = w2 at hv hs2 ⊢
  obtain ⟨rf, lf, hf⟩ := AddShader_trace d p fShader GL_FRAGMENT_SHADER w2
  have hs3 := (AddShader_globals d p fShader GL_FRAGMENT_SHADER w2).1
  rw [hs2] at hs3 hf
  generalize d.value w2.trace (Call.glCreateShader GL_FRAGMENT_SHADER) = sf at hf
  generalize AddShader d p fShader GL_FRAGMENT_SHADER w2 = w3 at hf hs3 ⊢
  simp only [hs3, linkEvents, eLogAfter]
  refine ⟨sv, rv, lv, sf, rf, lf, ?_⟩
  generalize (d.stored _ _).getD 0 = link
  by_cases hl : link = 0
  · subst hl
    simp only [if_true]
    generalize d.infoLog _ _ = l
    exact ⟨0, l, 0, none, by simp [hf, hv, ht1]⟩
  · simp only [if_neg hl]
    generalize (d.stored _ _).getD link = validate
    by_cases hvd : validate = 0
    · subst hvd
      simp only [if_true]
      generalize d.infoLog _ _ = l
      exact ⟨link, none, 0, l, by simp [hf, hv, ht1, hl]⟩
    · exact ⟨link, none, validate, none, by simp [hf, hv, ht1, hl, hvd]⟩

theorem frame_trace (mainWindow : Nat) (w : World) :
    (frame mainWindow w).trace = w.trace ++ frameEvents mainWindow w.shader w.VAO := by
  simp [frame, callVoid, World.emit, frameEvents]

theorem frame_globals (mainWindow : Nat) (w : World) :
    (frame mainWindow w).shader = w.shader ∧ (frame mainWindow w).VAO = w.VAO ∧
    (frame mainWindow w).VBO = w.VBO := by
  simp [frame, callVoid, World.emit]

theorem loopHead_globals (d : Device) (mainWindow : Nat) (k : Nat) (w : World) :
    (loopHead d mainWindow k w).shader = w.shader ∧ (loopHead d mainWindow k w).VAO = w.VAO ∧
    (loopHead d mainWindow k w).VBO = w.VBO := by
  induction k generalizing w with
  | zero => simp [loopHead]
  | succ k ih =>
    simp only [loopHead]
    rw [(ih _).1, (ih _).2.1, (ih _).2.2]
    simp [frame_globals, callValue, World.emit]

theorem closeAnswer_succ (d : Device) (mainWindow : Nat) (w : World) (k : Nat) :
    closeAnswer d mainWindow w (k + 1) = closeAnswer d mainWindow
      (frame mainWindow (callValue d (Call.glfwWindowShouldClose mainWindow) w).2) k := by
  simp only [closeAnswer, loopHead]

theorem loopHead_trace (d : Device) (mainWindow : Nat) (k : Nat) (w : World)
    (h : ∀ j, j < k → closeAnswer d mainWindow w j = 0) :
    (loopHead d mainWindow k w).trace = w.trace ++
      (List.replicate k (⟨Call.glfwWindowShouldClose mainWindow, Resp.value 0⟩ ::
        frameEvents mainWindow w.shader w.VAO)).flatten := by
  induction k generalizing w with
  | zero => simp [loopHead]
  | succ k ih =>
    have h0 : d.value w.trace (Call.glfwWindowShouldClose mainWindow) = 0 := h 0 (by omega)
    simp only [loopHead]
    rw [ih]
    · simp [frame_trace, frame_globals, callValue, World.emit, h0, List.replicate_succ]
    · intro j hj
      rw [← closeAnswer_succ]
      exact h (j + 1) (by omega)

theorem frameLoop_running (d : Device) (mainWindow : Nat) (fuel : Nat) (w : World)
    (h : ∀ j, j < fuel → closeAnswer d mainWindow w j = 0) :
    frameLoop d mainWindow fuel w = (false, loopHead d mainWindow fuel w) := by
  induction fuel generalizing w with
  | zero => simp [frameLoop, loopHead]
  | succ fuel ih =>
    have h0 : d.value w.trace (Call.glfwWindowShouldClose mainWindow) = 0 := h 0 (by omega)
    simp only [frameLoop, loopHead, callValue, h0, if_true]
    apply ih
    intro j hj
    have := h (j + 1) (by omega)
    rw [closeAnswer_succ] at this
    simpa [callValue, h0] using this

theorem frameLoop_exits (d : Device) (mainWindow : Nat) (n : Nat) (fuel : Nat) (w : World)
    (hfalse : ∀ j, j < n → closeAnswer d mainWindow w j = 0)
    (htrue : closeAnswer d mainWindow w n ≠ 0) (hfuel : n < fuel) :
    frameLoop d mainWindow fuel w =
      (true, (callValue d (Call.glfwWindowShouldClose mainWindow) (loopHead d mainWindow n w)).2) := by
  induction n generalizing w fuel with
  | zero =>
    obtain ⟨fuel, rfl⟩ : ∃ m, fuel = m + 1 := ⟨fuel - 1, by omega⟩
    have h0 : d.value w.trace (Call.glfwWindowShouldClose mainWindow) ≠ 0 := htrue
    simp [frameLoop, loopHead, callValue, h0]
  | succ n ih =>
    obtain ⟨fuel, rfl⟩ : ∃ m, fuel = m + 1 := ⟨fuel - 1, by omega⟩
    have h0 : d.value w.trace (Call.glfwWindowShouldClose mainWindow) = 0 := hfalse 0 (by omega)
    simp only [frameLoop, loopHead, callValue, h0, if_true]
    apply ih
    · intro j hj
      have := hfalse (j + 1) (by omega)
      rw [closeAnswer_succ] at this
      simpa [callValue, h0] using this
    · rw [closeAnswer_succ] at htrue
      simpa [callValue, h0] using htrue
    · omega

/-- A loop left at its `n+1`-th test emits `n` passes and the final test. -/
theorem frameLoop_exits_trace (d : Device) (mainWindow : Nat) (n : Nat) (fuel : Nat) (w : World)
    (hfalse : ∀ j, j < n → closeAnswer d mainWindow w j = 0)
    (htrue : closeAnswer d mainWindow w n ≠ 0) (hfuel : n < fuel) :
    (frameLoop d mainWindow fuel w).1 = true ∧
    (frameLoop d mainWindow fuel w).2.trace = w.trace ++
      loopEvents mainWindow w.shader w.VAO n (closeAnswer d mainWindow w n) := by
  rw [frameLoop_exits d mainWindow n fuel w hfalse htrue hfuel]
  simp [callValue, World.emit, loopHead_trace d mainWindow n w hfalse, loopEvents, closeAnswer]

/-! ## The diagnostic buffer -/

theorem cstr_terminated (buf : List Nat) (i : Nat) (h : buf[i]? = some 0) :
    (cstr buf).length ≤ i ∧ buf[(cstr buf).length]? = some 0 := by
  induction buf generalizing i with
  | nil => simp at h
  | cons x xs ih =>
    by_cases hx : x = 0
    · subst hx
      simp [cstr]
    · cases i with
      | zero => simp at h; exact absurd h hx
      | succ j =>
        have hj : xs[j]? = some 0 := by simpa using h
        have := ih j hj
        simp only [cstr] at this ⊢
        simp [List.takeWhile_cons, hx, this.1, this.2]

theorem writeInfoLog_length (n : Nat) (log : Option (List Nat)) (buf : List Nat)
    (h : buf.length = n) : (writeInfoLog n log buf).length = n := by
  cases log with
  | none => simpa [writeInfoLog] using h
  | some l =>
    simp only [writeInfoLog]
    split
    · exact h
    · simp only [List.length_append, List.length_take, List.length_drop, List.length_cons,
        List.length_nil, h]
      omega

theorem writeInfoLog_nul (n : Nat) (log : Option (List Nat)) (hn : 0 < n) :
    ∃ i, i < n ∧ (writeInfoLog n log (List.replicate n 0))[i]? = some 0 := by
  cases log with
  | none =>
    refine ⟨0, hn, ?_⟩
    simp [writeInfoLog, List.getElem?_replicate, hn]
  | some l =>
    refine ⟨(l.take (n - 1)).length, ?_, ?_⟩
    · simp only [List.length_take]
      omega
    · have hn0 : n ≠ 0 := by omega
      simp only [writeInfoLog, if_neg hn0, List.append_assoc]
      rw [List.getElem?_append_right (le_refl _)]
      simp

theorem eLogAfter_length (log : Option (List Nat)) : (eLogAfter log).length = 1024 :=
  writeInfoLog_length sizeofELog log _ (List.length_replicate _ _)

theorem eLogAfter_nul (log : Option (List Nat)) :
    ∃ i, i ≤ 1023 ∧ (eLogAfter log)[i]? = some 0 := by
  obtain ⟨i, hi, h0⟩ := writeInfoLog_nul sizeofELog log (by decide)
  have hs : sizeofELog = 1024 := rfl
  exact ⟨i, by omega, h0⟩

theorem cstr_eLogAfter (log : Option (List Nat)) :
    (cstr (eLogAfter log)).length ≤ 1023 ∧
    (eLogAfter log)[(cstr (eLogAfter log)).length]? = some 0 := by
  obtain ⟨i, hi, h0⟩ := eLogAfter_nul log
  have := cstr_terminated (eLogAfter log) i h0
  exact ⟨by omega, this.2⟩

/-! ## Kinds of calls each function makes -/

theorem triangleEvents_kinds (a b : Nat) :
    ∀ e ∈ triangleEvents a b, e.call.isGeometry = true := by
  simp [triangleEvents, Call.isGeometry]

theorem stageEvents_kinds (shader theProgram : Nat) (shaderCode : String)
    (shaderType theShader : Nat) (result : Int) (log : Option (List Nat)) :
    ∀ e ∈ stageEvents shader theProgram shaderCode shaderType theShader result log,
      (e.call.isBuild || e.call.isPrintf) = true := by
  unfold stageEvents
  split <;> simp [Call.isBuild, Call.isPrintf]

theorem linkEvents_kinds (p : Nat) (link : Int) (linkLog : Option (List Nat)) (validate : Int)
    (validateLog : Option (List Nat)) :
    ∀ e ∈ linkEvents p link linkLog validate validateLog,
      (e.call.isBuild || e.call.isPrintf) = true := by
  unfold linkEvents
  split
  · simp [Call.isBuild, Call.isPrintf]
  · split <;> simp [Call.isBuild, Call.isPrintf]

theorem CompileShaders_emits (d : Device) (w : World) :
    ∃ evs, (CompileShaders d w).trace = w.trace ++
        (⟨Call.glCreateProgram, Resp.value (d.value w.trace Call.glCreateProgram)⟩ :: evs) ∧
      ∀ e ∈ evs, (e.call.isBuild || e.call.isPrintf) = true := by
  by_cases h : d.value w.trace Call.glCreateProgram = 0
  · refine ⟨[⟨Call.printf "Error creating shader program" [], Resp.none⟩], ?_, ?_⟩
    · rw [CompileShaders_trace_zero d w h, h]
    · simp [Call.isBuild, Call.isPrintf]
  · obtain ⟨sv, rv, lv, sf, rf, lf, link, linkLog, validate, validateLog, ht⟩ :=
      CompileShaders_trace_pos d w h
    refine ⟨_, ht, ?_⟩
    intro e he
    simp only [List.mem_append] at he
    rcases he with (he | he) | he
    · exact stageEvents_kinds _ _ _ _ _ _ _ e he
    · exact stageEvents_kinds _ _ _ _ _ _ _ e he
    · exact linkEvents_kinds _ _ _ _ _ e he

theorem frameEvents_kinds (mainWindow shader VAO : Nat) :
    ∀ e ∈ frameEvents mainWindow shader VAO, e.call.isFrame = true := by
  simp [frameEvents, Call.isFrame]

theorem frameLoop_emits (d : Device) (mainWindow : Nat) (fuel : Nat) (w : World) :
    ∃ evs, (frameLoop d mainWindow fuel w).2.trace = w.trace ++ evs ∧
      (∀ e ∈ evs, e.call.isFrame = true) := by
  induction fuel generalizing w with
  | zero => exact ⟨[], by simp [frameLoop]⟩
  | succ fuel ih =>
    simp only [frameLoop, callValue]
    split
    · rename_i h0
      obtain ⟨evs, ht, hk⟩ := ih (frame mainWindow
        (w.emit (Call.glfwWindowShouldClose mainWindow)
          (Resp.value (d.value w.trace (Call.glfwWindowShouldClose mainWindow)))))
      refine ⟨⟨Call.glfwWindowShouldClose mainWindow, Resp.value 0⟩ ::
        (frameEvents mainWindow w.shader w.VAO ++ evs), ?_, ?_⟩
      · rw [ht, frame_trace]
        simp [World.emit, h0]
      · intro e he
        simp only [List.mem_cons, List.mem_append] at he
        rcases he with rfl | he | he
        · rfl
        · exact frameEvents_kinds _ _ _ e he
        · exact hk e he
    · exact ⟨[⟨Call.glfwWindowShouldClose mainWindow,
        Resp.value (d.value w.trace (Call.glfwWindowShouldClose mainWindow))⟩],
        by simp [World.emit], by simp [Call.isFrame]⟩


/-! ## The start-up part of `main` -/

theorem startup_cases (d : Device) :
    (∃ w, startup d = Startup.exit 1 w ∧ w.trace =
      [⟨Call.glfwInit, Resp.value 0⟩,
       ⟨Call.printf "GLFW Initialisation failed" [], Resp.none⟩,
       ⟨Call.glfwTerminate, Resp.none⟩]) ∨
    (∃ ok w, ok ≠ 0 ∧ startup d = Startup.exit 1 w ∧ w.trace = initEvents ok ++
      [⟨Call.glfwCreateWindow WIDTH HEIGHT "Test Window", Resp.value 0⟩,
       ⟨Call.printf "GLFW window creation failed!" [], Resp.none⟩]) ∨
    (∃ ok win width height status w, ok ≠ 0 ∧ win ≠ 0 ∧ status ≠ GLEW_OK ∧
      startup d = Startup.exit 1 w ∧
      w.trace = initEvents ok ++ contextEvents win width height status ++
        [⟨Call.printf "GLEW initialisation failed!" [], Resp.none⟩,
         ⟨Call.glfwDestroyWindow win, Resp.none⟩,
         ⟨Call.glfwTerminate, Resp.none⟩]) ∨
    (∃ ok win width height a b build w, ok ≠ 0 ∧ win ≠ 0 ∧
      startup d = Startup.ready win w ∧
      w.trace = initEvents ok ++ contextEvents win width height GLEW_OK ++
        (⟨Call.glViewport 0 0 width height, Resp.none⟩ :: triangleEvents a b) ++
        (⟨Call.glCreateProgram, Resp.value w.shader⟩ :: build) ∧
      w.VAO = a ∧ ∀ e ∈ build, (e.call.isBuild || e.call.isPrintf) = true) := by
  obtain ⟨ok, hok⟩ : ∃ ok, d.value [] Call.glfwInit = ok := ⟨_, rfl⟩
  obtain ⟨win, hwin⟩ : ∃ win, d.value (initEvents ok)
    (Call.glfwCreateWindow WIDTH HEIGHT "Test Window") = win := ⟨_, rfl⟩
  obtain ⟨sz, hsz⟩ : ∃ sz, d.size (initEvents ok ++
    [⟨Call.glfwCreateWindow WIDTH HEIGHT "Test Window", Resp.value win⟩])
    (Call.glfwGetFramebufferSize win) = sz := ⟨_, rfl⟩
  obtain ⟨status, hstatus⟩ : ∃ status, d.value (initEvents ok ++
    [⟨Call.glfwCreateWindow WIDTH HEIGHT "Test Window", Resp.value win⟩,
     ⟨Call.glfwGetFramebufferSize win, Resp.size sz.1 sz.2⟩,
     ⟨Call.glfwMakeContextCurrent win, Resp.none⟩,
     ⟨Call.glewExperimental GL_TRUE, Resp.none⟩]) Call.glewInit = status := ⟨_, rfl⟩
  simp only [initEvents, List.cons_append, List.nil_append] at hwin hsz hstatus
  simp only [startup, callValue, callVoid, callSize, World.emit, World.init, List.nil_append,
    List.cons_append, List.append_assoc, hok, hwin, hsz, hstatus]
  split
  · rename_i h1
    left
    refine ⟨_, rfl, ?_⟩
    simp [h1]
  · rename_i h1
    split
    · rename_i h2
      right; left
      refine ⟨ok, _, h1, rfl, ?_⟩
      simp [initEvents, h2]
    · rename_i h2
      split
      · rename_i h3
        right; right; left
        refine ⟨ok, win, sz.1, sz.2, status, _, h1, h2, h3, rfl, ?_⟩
        simp [initEvents, contextEvents]
      · rename_i h3
        right; right; right
        simp only [ne_eq, not_not] at h3
        subst h3
        generalize hW : World.mk 0 0 0 _ = W
        have hWt : W.trace = initEvents ok ++ contextEvents win sz.1 sz.2 GLEW_OK ++
            [⟨Call.glViewport 0 0 sz.1 sz.2, Resp.none⟩] := by
          rw [← hW]
          simp [initEvents, contextEvents]
        obtain ⟨b, htri, hvao, -, -⟩ := CreateTriangle_trace d W
        obtain ⟨build, hb, hk⟩ := CompileShaders_emits d (CreateTriangle d W)
        have hg := CompileShaders_globals d (CreateTriangle d W)
        refine ⟨ok, win, sz.1, sz.2, d.value W.trace (Call.glGenVertexArrays 1), b, build,
          CompileShaders d (CreateTriangle d W), h1, h2, rfl, ?_, ?_, hk⟩
        · rw [hb, hg.1, htri, hWt]
          simp
        · rw [hg.2.1, hvao]


theorem startup_ready (d : Device) (hglfw : glfwInitAnswer d ≠ 0) (hwindow : windowAnswer d ≠ 0)
    (hglew : glewInitAnswer d = GLEW_OK) :
    startup d = Startup.ready (windowAnswer d) (afterBuild d) := by
  have hok : d.value [] Call.glfwInit = glfwInitAnswer d := rfl
  have hwin : d.value (initEvents (glfwInitAnswer d))
      (Call.glfwCreateWindow WIDTH HEIGHT "Test Window") = windowAnswer d := rfl
  have hsz : d.size (initEvents (glfwInitAnswer d) ++
      [⟨Call.glfwCreateWindow WIDTH HEIGHT "Test Window", Resp.value (windowAnswer d)⟩])
      (Call.glfwGetFramebufferSize (windowAnswer d)) = sizeAnswer d := rfl
  have hstatus : d.value (initEvents (glfwInitAnswer d) ++
      [⟨Call.glfwCreateWindow WIDTH HEIGHT "Test Window", Resp.value (windowAnswer d)⟩,
       ⟨Call.glfwGetFramebufferSize (windowAnswer d),
         Resp.size (sizeAnswer d).1 (sizeAnswer d).2⟩,
       ⟨Call.glfwMakeContextCurrent (windowAnswer d), Resp.none⟩,
       ⟨Call.glewExperimental GL_TRUE, Resp.none⟩]) Call.glewInit = glewInitAnswer d := rfl
  simp only [initEvents, List.cons_append, List.nil_append] at hwin hsz hstatus
  simp only [startup, callValue, callVoid, callSize, World.emit, World.init, List.nil_append,
    List.cons_append, List.append_assoc, hok, hwin, hsz, hstatus, if_neg hglfw, if_neg hwindow,
    hglew, ne_eq, not_true_eq_false, if_false]
  simp only [afterBuild, beforeGeometry, initEvents, contextEvents, hglew, List.cons_append,
    List.nil_append]

/-! ## Draw calls and the bound vertex array -/

theorem boundVertexArray_snoc (evs : List Event) (e : Event) :
    boundVertexArray (evs ++ [e]) =
      match e.call with
      | Call.glBindVertexArray a => a
      | _ => boundVertexArray evs := by
  simp [boundVertexArray, List.foldl_append]

theorem DrawsTriangleOf_of_no_draw (a : Nat) (evs : List Event)
    (h : ∀ e ∈ evs, e.call.isDraw = false) : DrawsTriangleOf a evs := by
  intro i e hi hd
  have := h e (List.getElem?_mem hi)
  simp [this] at hd

theorem DrawsTriangleOf_snoc (a : Nat) (evs : List Event) (x : Event)
    (h : DrawsTriangleOf a evs)
    (hx : x.call.isDraw = true →
      x.call = Call.glDrawArrays GL_TRIANGLES 0 3 ∧ boundVertexArray evs = a) :
    DrawsTriangleOf a (evs ++ [x]) := by
  intro i e hi hd
  rcases Nat.lt_or_ge i evs.length with hlt | hge
  · rw [List.getElem?_append_left hlt] at hi
    rw [List.take_append_of_le_length (le_of_lt hlt)]
    exact h i e hi hd
  · rw [List.getElem?_append_right hge] at hi
    have hi0 : i - evs.length = 0 := by
      by_contra hne
      obtain ⟨m, hm⟩ : ∃ m, i - evs.length = m + 1 := ⟨i - evs.length - 1, by omega⟩
      rw [hm] at hi
      simp at hi
    rw [hi0] at hi
    simp only [List.getElem?_cons_zero, Option.some.injEq] at hi
    subst hi
    have hie : i = evs.length := by omega
    subst hie
    simpa using hx hd

theorem frame_draws (mainWindow : Nat) (w : World) (a : Nat)
    (h : DrawsTriangleOf a w.trace) (hv : w.VAO = a) :
    DrawsTriangleOf a (frame mainWindow w).trace := by
  simp only [frame, callVoid, World.emit]
  repeat' apply DrawsTriangleOf_snoc
  all_goals first
    | exact h
    | (intro hd; simp [Call.isDraw] at hd; done)
    | (intro _; simp [boundVertexArray, hv])

theorem frameLoop_draws (d : Device) (mainWindow : Nat) (fuel : Nat) (w : World) (a : Nat)
    (h : DrawsTriangleOf a w.trace) (hv : w.VAO = a) :
    DrawsTriangleOf a (frameLoop d mainWindow fuel w).2.trace := by
  induction fuel generalizing w with
  | zero => simpa [frameLoop] using h
  | succ fuel ih =>
    have hq : DrawsTriangleOf a (w.emit (Call.glfwWindowShouldClose mainWindow)
        (Resp.value (d.value w.trace (Call.glfwWindowShouldClose mainWindow)))).trace := by
      simp only [World.emit]
      exact DrawsTriangleOf_snoc a _ _ h (by intro hd; simp [Call.isDraw] at hd)
    simp only [frameLoop, callValue]
    split
    · apply ih
      · exact frame_draws _ _ _ hq (by simpa [World.emit] using hv)
      · rw [(frame_globals _ _).2.1]
        simpa [World.emit] using hv
    · exact hq

theorem frameLoop_globals (d : Device) (mainWindow : Nat) (fuel : Nat) (w : World) :
    (frameLoop d mainWindow fuel w).2.shader = w.shader ∧
    (frameLoop d mainWindow fuel w).2.VAO = w.VAO := by
  induction fuel generalizing w with
  | zero => simp [frameLoop]
  | succ fuel ih =>
    simp only [frameLoop, callValue]
    split
    · rw [(ih _).1, (ih _).2, (frame_globals _ _).1, (frame_globals _ _).2.1]
      simp [World.emit]
    · simp [World.emit]

/-! ## The whole of `main` -/

theorem main_of_exit (d : Device) (fuel : Nat) (status : Int) (w : World)
    (h : startup d = Startup.exit status w) : main d fuel = (some status, w) := by
  simp [main, h]

theorem main_of_ready (d : Device) (fuel : Nat) (mainWindow : Nat) (w : World)
    (h : startup d = Startup.ready mainWindow w) :
    main d fuel = (if (frameLoop d mainWindow fuel w).1 then some 0 else none,
      (frameLoop d mainWindow fuel w).2) := by
  simp only [main, h]
  split <;> rfl

theorem Call.isFrame_not_init (c : Call) (h : c.isFrame = true) : c.isInit = false := by
  cases c <;> simp_all [Call.isFrame, Call.isInit]

theorem Call.isFrame_not_gen (c : Call) (h : c.isFrame = true) :
    c.isGenVertexArrays = false := by
  cases c <;> simp_all [Call.isFrame, Call.isGenVertexArrays]

theorem Call.isBuild_not_init (c : Call) (h : (c.isBuild || c.isPrintf) = true) :
    c.isInit = false := by
  cases c <;> simp_all [Call.isBuild, Call.isPrintf, Call.isInit]

theorem Call.isBuild_not_gen (c : Call) (h : (c.isBuild || c.isPrintf) = true) :
    c.isGenVertexArrays = false := by
  cases c <;> simp_all [Call.isBuild, Call.isPrintf, Call.isGenVertexArrays]

theorem Call.isBuild_not_draw (c : Call) (h : (c.isBuild || c.isPrintf) = true) :
    c.isDraw = false := by
  cases c <;> simp_all [Call.isBuild, Call.isPrintf, Call.isDraw]


theorem Call.isFrame_not_upload (c : Call) (h : c.isFrame = true) : c.isUpload = false := by
  cases c <;> simp_all [Call.isFrame, Call.isUpload]

theorem Call.isBuild_not_upload (c : Call) (h : (c.isBuild || c.isPrintf) = true) :
    c.isUpload = false := by
  cases c <;> simp_all [Call.isBuild, Call.isPrintf, Call.isUpload]

/-! ## Claims about `AddShader` and `CompileShaders` -/

/-- C2: for every program handle, source string and stage kind, `AddShader`
creates a stage, uploads the source, compiles it and queries
`GL_COMPILE_STATUS` of that stage; when the status variable is non-zero it
calls `glAttachShader(theProgram, theShader)` exactly once and prints nothing,
and when it is zero it prints exactly one `Error compiling the %d shader`
message whose integer argument is the stage kind passed in, and attaches
nothing. -/
theorem AddShader_attaches_iff_compiled (d : Device) (theProgram : Nat) (shaderCode : String)
    (shaderType : Nat) (w : World) :
    ∃ theShader result log,
      emitted w (AddShader d theProgram shaderCode shaderType w) =
        [⟨Call.glCreateShader shaderType, Resp.value theShader⟩,
         ⟨Call.glShaderSource theShader 1 [shaderCode] [toGLint (strlen shaderCode)], Resp.none⟩,
         ⟨Call.glCompileShader theShader, Resp.none⟩,
         ⟨Call.glGetShaderiv theShader GL_COMPILE_STATUS, Resp.stored result⟩] ++
        (if result = 0 then
          [⟨Call.glGetShaderInfoLog w.shader 1024, Resp.log (eLogAfter log)⟩,
           ⟨Call.printf "Error compiling the %d shader: '%s'\n"
              [PrintfArg.num shaderType, PrintfArg.str (cstr (eLogAfter log))], Resp.none⟩]
         else [⟨Call.glAttachShader theProgram theShader, Resp.none⟩]) ∧
      callsWhere Call.isAttach (emitted w (AddShader d theProgram shaderCode shaderType w)) =
        (if result = 0 then [] else [Call.glAttachShader theProgram theShader]) ∧
      callsWhere Call.isPrintf (emitted w (AddShader d theProgram shaderCode shaderType w)) =
        (if result = 0 then
          [Call.printf "Error compiling the %d shader: '%s'\n"
            [PrintfArg.num shaderType, PrintfArg.str (cstr (eLogAfter log))]]
         else []) := by
  obtain ⟨result, log, ht⟩ := AddShader_trace d theProgram shaderCode shaderType w
  refine ⟨d.value w.trace (Call.glCreateShader shaderType), result, log, ?_⟩
  rw [emitted_of_trace ht]
  by_cases h : result = 0
  · simp [stageEvents, h, callsWhere, Call.isAttach, Call.isPrintf, sizeofELog]
  · simp [stageEvents, h, callsWhere, Call.isAttach, Call.isPrintf]

/-- C5: when `glCreateProgram` returns the zero handle, `CompileShaders`
makes that one call, prints `Error creating shader program` and returns: no
other OpenGL call is made and the global `shader` is `0`. -/
theorem CompileShaders_stops_without_program (d : Device) (w : World)
    (h : d.value w.trace Call.glCreateProgram = 0) :
    emitted w (CompileShaders d w) =
      [⟨Call.glCreateProgram, Resp.value 0⟩,
       ⟨Call.printf "Error creating shader program" [], Resp.none⟩] ∧
    callsWhere Call.isBuild (emitted w (CompileShaders d w)) = [Call.glCreateProgram] ∧
    (CompileShaders d w).shader = 0 := by
  rw [emitted_of_trace (CompileShaders_trace_zero d w h), (CompileShaders_globals d w).1, h]
  simp [callsWhere, Call.isBuild]

/-- Witness of C5: a device that cannot allocate a program. -/
theorem CompileShaders_stops_without_program_witness :
    Script.noProgram.device.value World.init.trace Call.glCreateProgram = 0 ∧
    emitted World.init (CompileShaders Script.noProgram.device World.init) =
      [⟨Call.glCreateProgram, Resp.value 0⟩,
       ⟨Call.printf "Error creating shader program" [], Resp.none⟩] ∧
    callsWhere Call.isBuild
      (emitted World.init (CompileShaders Script.noProgram.device World.init)) =
      [Call.glCreateProgram] ∧
    (CompileShaders Script.noProgram.device World.init).shader = 0 :=
  ⟨by decide, CompileShaders_stops_without_program _ _ (by decide)⟩

theorem stageEvents_not_link (shader theProgram : Nat) (shaderCode : String)
    (shaderType theShader : Nat) (result : Int) (log : Option (List Nat)) :
    (∀ p pname r, (⟨Call.glGetProgramiv p pname, r⟩ : Event) ∉
      stageEvents shader theProgram shaderCode shaderType theShader result log) ∧
    (∀ q, Call.glValidateProgram q ∉
      (stageEvents shader theProgram shaderCode shaderType theShader result log).map Event.call) ∧
    callsWhere (Call.printsFormat "Error linking program: '%s'\n")
      (stageEvents shader theProgram shaderCode shaderType theShader result log) = [] ∧
    callsWhere (Call.printsFormat "Error validating program: '%s'\n")
      (stageEvents shader theProgram shaderCode shaderType theShader result log) = [] ∧
    callsWhere Call.isValidateStep
      (stageEvents shader theProgram shaderCode shaderType theShader result log) = [] := by
  unfold stageEvents
  split <;> simp [callsWhere, Call.printsFormat, Call.isValidateStep]

/-- C1: in `CompileShaders` the link status is checked before validation.
Whenever the `GL_LINK_STATUS` query leaves `0` in the status variable, exactly
one `Error linking program` message is printed, `glValidateProgram` is not
called, `GL_VALIDATE_STATUS` is not queried and no `Error validating program`
message is printed.  Conversely a call of `glValidateProgram` comes
immediately after a `GL_LINK_STATUS` query of the same program that left a
non-zero status. -/
theorem link_is_checked_before_validate (d : Device) (w : World) :
    (∀ p, (⟨Call.glGetProgramiv p GL_LINK_STATUS, Resp.stored 0⟩ : Event) ∈
        emitted w (CompileShaders d w) →
      (callsWhere (Call.printsFormat "Error linking program: '%s'\n")
        (emitted w (CompileShaders d w))).length = 1 ∧
      callsWhere Call.isValidateStep (emitted w (CompileShaders d w)) = [] ∧
      callsWhere (Call.printsFormat "Error validating program: '%s'\n")
        (emitted w (CompileShaders d w)) = []) ∧
    (∀ q, Call.glValidateProgram q ∈ (emitted w (CompileShaders d w)).map Event.call →
      ∃ r pre post, r ≠ 0 ∧ emitted w (CompileShaders d w) = pre ++
        [⟨Call.glGetProgramiv q GL_LINK_STATUS, Resp.stored r⟩,
         ⟨Call.glValidateProgram q, Resp.none⟩] ++ post) := by
  by_cases h0 : d.value w.trace Call.glCreateProgram = 0
  · rw [emitted_of_trace (CompileShaders_trace_zero d w h0)]
    simp
  · obtain ⟨sv, rv, lv, sf, rf, lf, link, linkLog, validate, validateLog, ht⟩ :=
      CompileShaders_trace_pos d w h0
    rw [emitted_of_trace ht]
    generalize d.value w.trace Call.glCreateProgram = p
    obtain ⟨hv1, hv2, hv3, hv4, hv5⟩ :=
      stageEvents_not_link p p vShader GL_VERTEX_SHADER sv rv lv
    obtain ⟨hf1, hf2, hf3, hf4, hf5⟩ :=
      stageEvents_not_link p p fShader GL_FRAGMENT_SHADER sf rf lf
    simp only [callsWhere] at hv3 hv4 hv5 hf3 hf4 hf5
    constructor
    · intro q hq
      simp only [List.mem_cons, List.mem_append, hv1, hf1, false_or, Event.mk.injEq,
        reduceCtorEq, false_and] at hq
      have hl : link = 0 := by
        unfold linkEvents at hq
        by_cases hl : link = 0
        · exact hl
        · simp only [if_neg hl] at hq
          split at hq <;> simp [GL_LINK_STATUS, GL_VALIDATE_STATUS] at hq <;> omega
      subst hl
      simp [callsWhere, linkEvents, Call.printsFormat, Call.isValidateStep, hv3, hv4, hv5, hf3,
        hf4, hf5, GL_LINK_STATUS, GL_VALIDATE_STATUS]
    · intro q hq
      simp only [List.map_cons, List.map_append, List.mem_cons, List.mem_append, hv2, hf2,
        false_or, reduceCtorEq] at hq
      have hl : link ≠ 0 := by
        intro hl
        simp [linkEvents, hl] at hq
      have hqp : q = p := by
        unfold linkEvents at hq
        simp only [if_neg hl] at hq
        split at hq <;> simp at hq <;> exact hq
      subst hqp
      refine ⟨link, ⟨Call.glCreateProgram, Resp.value q⟩ ::
        (stageEvents q q vShader GL_VERTEX_SHADER sv rv lv ++
          stageEvents q q fShader GL_FRAGMENT_SHADER sf rf lf ++
          [⟨Call.glLinkProgram q, Resp.none⟩]),
        ⟨Call.glGetProgramiv q GL_VALIDATE_STATUS, Resp.stored validate⟩ ::
          (if validate = 0 then
            [⟨Call.glGetProgramInfoLog q sizeofELog, Resp.log (eLogAfter validateLog)⟩,
             ⟨Call.printf "Error validating program: '%s'\n"
                [PrintfArg.str (cstr (eLogAfter validateLog))], Resp.none⟩]
           else []), hl, ?_⟩
      simp [linkEvents, hl]

theorem stageEvents_filter (shader theProgram : Nat) (shaderCode : String)
    (shaderType theShader : Nat) (result : Int) (log : Option (List Nat)) :
    (stageEvents shader theProgram shaderCode shaderType theShader result log).filter
        (fun e => e.call.isStageStep) =
      [⟨Call.glCreateShader shaderType, Resp.value theShader⟩,
       ⟨Call.glShaderSource theShader 1 [shaderCode] [toGLint (strlen shaderCode)], Resp.none⟩,
       ⟨Call.glCompileShader theShader, Resp.none⟩,
       ⟨Call.glGetShaderiv theShader GL_COMPILE_STATUS, Resp.stored result⟩] ++
      (if result = 0 then [] else [⟨Call.glAttachShader theProgram theShader, Resp.none⟩]) := by
  unfold stageEvents
  split <;> simp [Call.isStageStep]

theorem linkEvents_filter (p : Nat) (link : Int) (linkLog : Option (List Nat)) (validate : Int)
    (validateLog : Option (List Nat)) :
    (linkEvents p link linkLog validate validateLog).filter (fun e => e.call.isStageStep) =
      [⟨Call.glLinkProgram p, Resp.none⟩] := by
  unfold linkEvents
  split
  · simp [Call.isStageStep]
  · split <;> simp [Call.isStageStep]

/-- C4: when a program was created, `CompileShaders` handles the two stages
independently.  Whatever the compile status `rv` of the vertex stage, the
fragment stage is created, given `fShader` and compiled after it; each stage
is attached exactly when its own status is non-zero; and `glLinkProgram` is
called exactly once, after both. -/
theorem stages_are_built_independently (d : Device) (w : World)
    (h : d.value w.trace Call.glCreateProgram ≠ 0) :
    ∃ sv rv sf rf,
      (emitted w (CompileShaders d w)).filter (fun e => e.call.isStageStep) =
        [⟨Call.glCreateShader GL_VERTEX_SHADER, Resp.value sv⟩,
         ⟨Call.glShaderSource sv 1 [vShader] [toGLint (strlen vShader)], Resp.none⟩,
         ⟨Call.glCompileShader sv, Resp.none⟩,
         ⟨Call.glGetShaderiv sv GL_COMPILE_STATUS, Resp.stored rv⟩] ++
        (if rv = 0 then []
         else [⟨Call.glAttachShader (d.value w.trace Call.glCreateProgram) sv, Resp.none⟩]) ++
        [⟨Call.glCreateShader GL_FRAGMENT_SHADER, Resp.value sf⟩,
         ⟨Call.glShaderSource sf 1 [fShader] [toGLint (strlen fShader)], Resp.none⟩,
         ⟨Call.glCompileShader sf, Resp.none⟩,
         ⟨Call.glGetShaderiv sf GL_COMPILE_STATUS, Resp.stored rf⟩] ++
        (if rf = 0 then []
         else [⟨Call.glAttachShader (d.value w.trace Call.glCreateProgram) sf, Resp.none⟩]) ++
        [⟨Call.glLinkProgram (d.value w.trace Call.glCreateProgram), Resp.none⟩] := by
  obtain ⟨sv, rv, lv, sf, rf, lf, link, linkLog, validate, validateLog, ht⟩ :=
    CompileShaders_trace_pos d w h
  refine ⟨sv, rv, sf, rf, ?_⟩
  rw [emitted_of_trace ht]
  simp only [List.filter_cons, List.filter_append, stageEvents_filter, linkEvents_filter]
  simp [Call.isStageStep]

/-! ## Bounded diagnostics -/

theorem BoundedDiagnostics_append (l1 l2 : List Event) (h1 : BoundedDiagnostics l1)
    (h2 : BoundedDiagnostics l2) : BoundedDiagnostics (l1 ++ l2) := by
  constructor
  · intro obj n buf h
    simp only [List.mem_append] at h
    rcases h with (h | h) | (h | h)
    · exact h1.1 obj n buf (Or.inl h)
    · exact h2.1 obj n buf (Or.inl h)
    · exact h1.1 obj n buf (Or.inr h)
    · exact h2.1 obj n buf (Or.inr h)
  · intro e he fmt args s hc hs
    simp only [List.mem_append] at he
    rcases he with he | he
    · obtain ⟨hl, obj, buf, hm, hrest⟩ := h1.2 e he fmt args s hc hs
      refine ⟨hl, obj, buf, ?_, hrest⟩
      simp only [List.mem_append]
      tauto
    · obtain ⟨hl, obj, buf, hm, hrest⟩ := h2.2 e he fmt args s hc hs
      refine ⟨hl, obj, buf, ?_, hrest⟩
      simp only [List.mem_append]
      tauto

theorem BoundedDiagnostics_query_print (q : Call) (fmt : String) (pre : List PrintfArg)
    (log : Option (List Nat)) (hpre : ∀ s, PrintfArg.str s ∉ pre)
    (hq : (∃ obj, q = Call.glGetShaderInfoLog obj 1024) ∨
      (∃ obj, q = Call.glGetProgramInfoLog obj 1024)) :
    BoundedDiagnostics [⟨q, Resp.log (eLogAfter log)⟩,
      ⟨Call.printf fmt (pre ++ [PrintfArg.str (cstr (eLogAfter log))]), Resp.none⟩] := by
  have hb := cstr_eLogAfter log
  have hlen := eLogAfter_length log
  constructor
  · intro obj n buf h
    have hbuf : (n = 1024 ∧ buf = eLogAfter log) := by
      rcases hq with ⟨o, rfl⟩ | ⟨o, rfl⟩ <;> simp at h <;> simp [h]
    exact ⟨hbuf.1, log, by rw [hbuf.2]; rfl⟩
  · intro e he f args s hc hs
    simp only [List.mem_cons, List.mem_singleton, List.not_mem_nil, or_false] at he
    rcases he with rfl | rfl
    · rcases hq with ⟨o, rfl⟩ | ⟨o, rfl⟩ <;> simp at hc
    · simp only [Call.printf.injEq] at hc
      obtain ⟨-, rfl⟩ := hc
      simp only [List.mem_append, List.mem_singleton, PrintfArg.str.injEq, hpre, false_or] at hs
      subst hs
      refine ⟨hb.1, ?_⟩
      rcases hq with ⟨o, rfl⟩ | ⟨o, rfl⟩
      · exact ⟨o, eLogAfter log, by simp, rfl, hlen, hb.2⟩
      · exact ⟨o, eLogAfter log, by simp, rfl, hlen, hb.2⟩

theorem BoundedDiagnostics_plain (evs : List Event)
    (h : ∀ e ∈ evs, (∀ obj n, e.call ≠ Call.glGetShaderInfoLog obj n) ∧
      (∀ obj n, e.call ≠ Call.glGetProgramInfoLog obj n) ∧
      (∀ fmt args, e.call = Call.printf fmt args → args = [])) :
    BoundedDiagnostics evs := by
  constructor
  · intro obj n buf hm
    rcases hm with hm | hm
    · exact absurd rfl ((h _ hm).1 obj n)
    · exact absurd rfl ((h _ hm).2.1 obj n)
  · intro e he fmt args s hc hs
    rw [(h e he).2.2 fmt args hc] at hs
    simp at hs

theorem stageEvents_bounded (shader theProgram : Nat) (shaderCode : String)
    (shaderType theShader : Nat) (result : Int) (log : Option (List Nat)) :
    BoundedDiagnostics
      (stageEvents shader theProgram shaderCode shaderType theShader result log) := by
  unfold stageEvents
  apply BoundedDiagnostics_append
  · apply BoundedDiagnostics_plain
    simp
  · split
    · exact BoundedDiagnostics_query_print _ _ [PrintfArg.num shaderType] log (by simp)
        (Or.inl ⟨shader, rfl⟩)
    · apply BoundedDiagnostics_plain
      simp

theorem linkEvents_bounded (p : Nat) (link : Int) (linkLog : Option (List Nat)) (validate : Int)
    (validateLog : Option (List Nat)) :
    BoundedDiagnostics (linkEvents p link linkLog validate validateLog) := by
  unfold linkEvents
  apply BoundedDiagnostics_append
  · apply BoundedDiagnostics_plain
    simp
  · split
    · exact BoundedDiagnostics_query_print _ _ [] linkLog (by simp) (Or.inr ⟨p, rfl⟩)
    · apply BoundedDiagnostics_append
      · apply BoundedDiagnostics_plain
        simp
      · split
        · exact BoundedDiagnostics_query_print _ _ [] validateLog (by simp) (Or.inr ⟨p, rfl⟩)
        · apply BoundedDiagnostics_plain
          simp

/-- C10: every diagnostic of the builder is bounded.  In `CompileShaders` and
in `AddShader`, each information-log query is given the length 1024 and a
zero-initialised buffer of 1024 characters, and each text printed is the C
string of that buffer: at most 1023 characters, followed by a null, whatever
the length of the log the device holds. -/
theorem diagnostics_are_bounded (d : Device) (w : World) (theProgram : Nat)
    (shaderCode : String) (shaderType : Nat) :
    BoundedDiagnostics (emitted w (CompileShaders d w)) ∧
    BoundedDiagnostics (emitted w (AddShader d theProgram shaderCode shaderType w)) := by
  constructor
  · by_cases h0 : d.value w.trace Call.glCreateProgram = 0
    · rw [emitted_of_trace (CompileShaders_trace_zero d w h0)]
      apply BoundedDiagnostics_plain
      simp
    · obtain ⟨sv, rv, lv, sf, rf, lf, link, linkLog, validate, validateLog, ht⟩ :=
        CompileShaders_trace_pos d w h0
      rw [emitted_of_trace ht]
      rw [← List.singleton_append]
      apply BoundedDiagnostics_append
      · apply BoundedDiagnostics_plain
        simp
      · apply BoundedDiagnostics_append
        · apply BoundedDiagnostics_append
          · exact stageEvents_bounded _ _ _ _ _ _ _
          · exact stageEvents_bounded _ _ _ _ _ _ _
        · exact linkEvents_bounded _ _ _ _ _
  · obtain ⟨result, log, ht⟩ := AddShader_trace d theProgram shaderCode shaderType w
    rw [emitted_of_trace ht]
    exact stageEvents_bounded _ _ _ _ _ _ _

/-! ## Claims about `main` -/

/-- C6: the frame loop stops exactly when `glfwWindowShouldClose` first
answers true.  When start-up reaches the loop and the answers to the loop
condition are `0` for the first `n` evaluations and non-zero at the next one,
`main` returns `0` as soon as it is allowed more than `n` evaluations, having
run the body exactly `n` times, each pass being poll events, clear, use
program, bind the vertex array, one draw call, unbind, swap buffers; with `n`
evaluations or fewer it has not returned. -/
theorem frame_loop_stops_at_first_close (d : Device) (mainWindow : Nat) (w0 : World) (n : Nat)
    (hstart : startup d = Startup.ready mainWindow w0)
    (hfalse : ∀ k, k < n → closeAnswer d mainWindow w0 k = 0)
    (htrue : closeAnswer d mainWindow w0 n ≠ 0) :
    (∀ fuel, n < fuel →
      (main d fuel).1 = some 0 ∧
      emitted w0 (main d fuel).2 =
        (List.replicate n
          [⟨Call.glfwWindowShouldClose mainWindow, Resp.value 0⟩,
           ⟨Call.glfwPollEvents, Resp.none⟩,
           ⟨Call.glClearColor 0 0 0 1, Resp.none⟩,
           ⟨Call.glClear GL_COLOR_BUFFER_BIT, Resp.none⟩,
           ⟨Call.glUseProgram w0.shader, Resp.none⟩,
           ⟨Call.glBindVertexArray w0.VAO, Resp.none⟩,
           ⟨Call.glDrawArrays GL_TRIANGLES 0 3, Resp.none⟩,
           ⟨Call.glBindVertexArray 0, Resp.none⟩,
           ⟨Call.glUseProgram 0, Resp.none⟩,
           ⟨Call.glfwSwapBuffers mainWindow, Resp.none⟩]).flatten ++
        [⟨Call.glfwWindowShouldClose mainWindow,
          Resp.value (closeAnswer d mainWindow w0 n)⟩]) ∧
    (∀ fuel, fuel ≤ n → (main d fuel).1 = none) := by
  constructor
  · intro fuel hfuel
    obtain ⟨hleft, ht⟩ := frameLoop_exits_trace d mainWindow n fuel w0 hfalse htrue hfuel
    rw [main_of_ready d fuel mainWindow w0 hstart]
    simp only [hleft, if_true, true_and]
    rw [emitted_of_trace ht]
    rfl
  · intro fuel hfuel
    rw [main_of_ready d fuel mainWindow w0 hstart,
      frameLoop_running d mainWindow fuel w0 (fun j hj => hfalse j (by omega))]
    simp

/-- C8: compile, link and validation failures are not fatal.  Assume only
that the three start-up checks pass (`glfwInit` answers non-zero, the window
is not null, `glewInit` answers `GLEW_OK`) and that the window is closed after
`n` frames; nothing is assumed about what `CompileShaders` did.  Then `main`
reaches the frame loop in the state `CompileShaders` left, runs it, and
returns `0`; its trace is that of the build followed by `n` passes of the loop
body, and in every pass it calls `glUseProgram` with the global `shader` (the
value `glCreateProgram` returned), draws, and unbinds the program. -/
theorem shader_failures_are_not_fatal (d : Device) (n fuel : Nat)
    (hglfw : glfwInitAnswer d ≠ 0) (hwindow : windowAnswer d ≠ 0)
    (hglew : glewInitAnswer d = GLEW_OK)
    (hfalse : ∀ k, k < n → closeAnswer d (windowAnswer d) (afterBuild d) k = 0)
    (htrue : closeAnswer d (windowAnswer d) (afterBuild d) n ≠ 0) (hfuel : n < fuel) :
    (main d fuel).1 = some 0 ∧
    (main d fuel).2.trace = (afterBuild d).trace ++
      ((List.replicate n
        [⟨Call.glfwWindowShouldClose (windowAnswer d), Resp.value 0⟩,
         ⟨Call.glfwPollEvents, Resp.none⟩,
         ⟨Call.glClearColor 0 0 0 1, Resp.none⟩,
         ⟨Call.glClear GL_COLOR_BUFFER_BIT, Resp.none⟩,
         ⟨Call.glUseProgram (afterBuild d).shader, Resp.none⟩,
         ⟨Call.glBindVertexArray (afterBuild d).VAO, Resp.none⟩,
         ⟨Call.glDrawArrays GL_TRIANGLES 0 3, Resp.none⟩,
         ⟨Call.glBindVertexArray 0, Resp.none⟩,
         ⟨Call.glUseProgram 0, Resp.none⟩,
         ⟨Call.glfwSwapBuffers (windowAnswer d), Resp.none⟩]).flatten ++
       [⟨Call.glfwWindowShouldClose (windowAnswer d),
         Resp.value (closeAnswer d (windowAnswer d) (afterBuild d) n)⟩]) ∧
    (afterBuild d).shader =
      d.value (CreateTriangle d (beforeGeometry d)).trace Call.glCreateProgram ∧
    (⟨Call.glCreateProgram, Resp.value (afterBuild d).shader⟩ : Event) ∈ (afterBuild d).trace ∧
    (main d fuel).2.shader = (afterBuild d).shader ∧
    callsWhere Call.isUseOrDraw (emitted (afterBuild d) (main d fuel).2) =
      (List.replicate n
        [Call.glUseProgram (afterBuild d).shader, Call.glDrawArrays GL_TRIANGLES 0 3,
         Call.glUseProgram 0]).flatten := by
  have hstart := startup_ready d hglfw hwindow hglew
  obtain ⟨hleft, ht⟩ :=
    frameLoop_exits_trace d (windowAnswer d) n fuel (afterBuild d) hfalse htrue hfuel
  rw [main_of_ready d fuel (windowAnswer d) (afterBuild d) hstart]
  simp only [hleft, if_true, true_and]
  refine ⟨?_, (CompileShaders_globals d _).1, ?_, (frameLoop_globals d _ fuel _).1, ?_⟩
  · rw [ht]
    rfl
  · obtain ⟨evs, he, -⟩ := CompileShaders_emits d (CreateTriangle d (beforeGeometry d))
    have hsh : (afterBuild d).shader =
        d.value (CreateTriangle d (beforeGeometry d)).trace Call.glCreateProgram :=
      (CompileShaders_globals d _).1
    have htr : (afterBuild d).trace = _ := he
    rw [htr, hsh]
    simp
  · rw [emitted_of_trace ht, loopEvents, callsWhere_append, callsWhere_flatten_replicate]
    simp [callsWhere, frameEvents, Call.isUseOrDraw]

/-- C7: each of the three start-up failures is fatal.  In every run in which
`glfwInit` returns `0`, or `glfwCreateWindow` returns the null pointer, or
`glewInit` returns something other than `GLEW_OK`, `main` prints one of its
three messages, returns `1` (whatever the bound on the loop) and makes none of
the calls of `CreateTriangle`, `CompileShaders` or the frame loop. -/
theorem startup_failures_are_fatal (d : Device) (fuel : Nat)
    (h : (⟨Call.glfwInit, Resp.value 0⟩ : Event) ∈ (main d fuel).2.trace ∨
      (∃ width height title,
        (⟨Call.glfwCreateWindow width height title, Resp.value 0⟩ : Event) ∈
          (main d fuel).2.trace) ∨
      (∃ status, status ≠ GLEW_OK ∧
        (⟨Call.glewInit, Resp.value status⟩ : Event) ∈ (main d fuel).2.trace)) :
    (main d fuel).1 = some 1 ∧
    (∃ msg, msg ∈ ["GLFW Initialisation failed", "GLFW window creation failed!",
        "GLEW initialisation failed!"] ∧
      callsWhere Call.isPrintf (main d fuel).2.trace = [Call.printf msg []]) ∧
    callsWhere Call.isRendering (main d fuel).2.trace = [] := by
  rcases startup_cases d with ⟨w, hs, hw⟩ | ⟨ok, w, -, hs, hw⟩ |
    ⟨ok, win, width, height, status, w, -, -, -, hs, hw⟩ |
    ⟨ok, win, width, height, a, b, build, w, hok, hwin, hs, hw, -, hb⟩
  · rw [main_of_exit d fuel 1 w hs]
    refine ⟨rfl, ⟨"GLFW Initialisation failed", by simp, ?_⟩, ?_⟩ <;>
      simp [hw, callsWhere, Call.isPrintf, Call.isRendering, Call.isGeometry, Call.isBuild,
        Call.isFrame]
  · rw [main_of_exit d fuel 1 w hs]
    refine ⟨rfl, ⟨"GLFW window creation failed!", by simp, ?_⟩, ?_⟩ <;>
      simp [hw, initEvents, callsWhere, Call.isPrintf, Call.isRendering, Call.isGeometry,
        Call.isBuild, Call.isFrame]
  · rw [main_of_exit d fuel 1 w hs]
    refine ⟨rfl, ⟨"GLEW initialisation failed!", by simp, ?_⟩, ?_⟩ <;>
      simp [hw, initEvents, contextEvents, callsWhere, Call.isPrintf, Call.isRendering,
        Call.isGeometry, Call.isBuild, Call.isFrame]
  · exfalso
    obtain ⟨evs, ht, hk⟩ := frameLoop_emits d win fuel w
    rw [main_of_ready d fuel win w hs] at h
    simp only [ht, hw] at h
    have hrest : ∀ e : Event, e.call.isInit = true →
        (e ∈ triangleEvents a b ∨ e ∈ build ∨ e ∈ evs) → False := by
      intro e hi he
      rcases he with he | he | he
      · have := triangleEvents_kinds a b e he
        revert hi this
        cases e.call <;> simp [Call.isInit, Call.isGeometry]
      · rw [Call.isBuild_not_init _ (hb e he)] at hi
        simp at hi
      · rw [Call.isFrame_not_init _ (hk e he)] at hi
        simp at hi
    rcases h with h | ⟨wd, ht', title, h⟩ | ⟨status, hst, h⟩
    · simp only [List.append_assoc, List.mem_append] at h
      rcases h with h | h | h
      · simp [initEvents] at h
        omega
      · simp [contextEvents] at h
      · exact hrest ⟨Call.glfwInit, Resp.value 0⟩ rfl (by simpa using h)
    · simp only [List.append_assoc, List.mem_append] at h
      rcases h with h | h | h
      · simp [initEvents] at h
      · simp [contextEvents] at h
        omega
      · exact hrest ⟨Call.glfwCreateWindow wd ht' title, Resp.value 0⟩ rfl (by simpa using h)
    · simp only [List.append_assoc, List.mem_append] at h
      rcases h with h | h | h
      · simp [initEvents] at h
      · simp [contextEvents] at h
        exact hst h
      · exact hrest ⟨Call.glewInit, Resp.value status⟩ rfl (by simpa using h)

/-- C9: the geometry drawn is exactly the fixed triangle.  `CreateTriangle`
generates a vertex array `a` and a buffer `b`, uploads the nine floats
`(-1,-1,0), (1,-1,0), (0,1,0)` (36 bytes) to `GL_ARRAY_BUFFER` and declares
attribute `0` as three floats with stride `0` and offset `0`, both while `a`
is the bound vertex array and `b` the bound array buffer.  In `main`, every
draw call is `glDrawArrays(GL_TRIANGLES, 0, 3)`; the trace of `main` holds,
before that draw call, exactly those events of `CreateTriangle` (the upload
and the declaration made with `a` and `b` bound) and no other call that
generates names, binds a buffer, uploads data or declares an attribute; and
the draw call is issued while that same vertex array `a` is bound. -/
theorem draws_the_fixed_triangle (d : Device) :
    (∀ w, ∃ a b,
      emitted w (CreateTriangle d w) =
        [⟨Call.glGenVertexArrays 1, Resp.value a⟩,
         ⟨Call.glBindVertexArray a, Resp.none⟩,
         ⟨Call.glGenBuffers 1, Resp.value b⟩,
         ⟨Call.glBindBuffer GL_ARRAY_BUFFER b, Resp.none⟩,
         ⟨Call.glBufferData GL_ARRAY_BUFFER 36 [-1, -1, 0, 1, -1, 0, 0, 1, 0] GL_STATIC_DRAW,
           Resp.none⟩,
         ⟨Call.glVertexAttribPointer 0 3 GL_FLOAT GL_FALSE 0 0, Resp.none⟩,
         ⟨Call.glEnableVertexAttribArray 0, Resp.none⟩,
         ⟨Call.glBindBuffer GL_ARRAY_BUFFER 0, Resp.none⟩,
         ⟨Call.glBindVertexArray 0, Resp.none⟩] ∧
      (CreateTriangle d w).VAO = a ∧ (CreateTriangle d w).VBO = b ∧
      boundVertexArray (w.trace ++ (emitted w (CreateTriangle d w)).take 4) = a ∧
      boundBuffer GL_ARRAY_BUFFER (w.trace ++ (emitted w (CreateTriangle d w)).take 4) = b ∧
      boundVertexArray (w.trace ++ (emitted w (CreateTriangle d w)).take 5) = a ∧
      boundBuffer GL_ARRAY_BUFFER (w.trace ++ (emitted w (CreateTriangle d w)).take 5) = b) ∧
    (∀ fuel i e, (main d fuel).2.trace[i]? = some e → e.call.isDraw = true →
      e.call = Call.glDrawArrays GL_TRIANGLES 0 3 ∧
      ∃ a b pre post,
        (main d fuel).2.trace = pre ++
          [⟨Call.glGenVertexArrays 1, Resp.value a⟩,
           ⟨Call.glBindVertexArray a, Resp.none⟩,
           ⟨Call.glGenBuffers 1, Resp.value b⟩,
           ⟨Call.glBindBuffer GL_ARRAY_BUFFER b, Resp.none⟩,
           ⟨Call.glBufferData GL_ARRAY_BUFFER 36 [-1, -1, 0, 1, -1, 0, 0, 1, 0]
             GL_STATIC_DRAW, Resp.none⟩,
           ⟨Call.glVertexAttribPointer 0 3 GL_FLOAT GL_FALSE 0 0, Resp.none⟩,
           ⟨Call.glEnableVertexAttribArray 0, Resp.none⟩,
           ⟨Call.glBindBuffer GL_ARRAY_BUFFER 0, Resp.none⟩,
           ⟨Call.glBindVertexArray 0, Resp.none⟩] ++ post ∧
        (∀ x ∈ pre ++ post, x.call.isUpload = false) ∧
        pre.length + 9 ≤ i ∧
        boundVertexArray ((main d fuel).2.trace.take (pre.length + 4)) = a ∧
        boundBuffer GL_ARRAY_BUFFER ((main d fuel).2.trace.take (pre.length + 4)) = b ∧
        boundVertexArray ((main d fuel).2.trace.take (pre.length + 5)) = a ∧
        boundBuffer GL_ARRAY_BUFFER ((main d fuel).2.trace.take (pre.length + 5)) = b ∧
        (main d fuel).2.trace.filter (fun x => x.call.isGenVertexArrays) =
          [⟨Call.glGenVertexArrays 1, Resp.value a⟩] ∧
        boundVertexArray ((main d fuel).2.trace.take i) = a) := by
  constructor
  · intro w
    obtain ⟨b, ht, hvao, hvbo, -⟩ := CreateTriangle_trace d w
    refine ⟨d.value w.trace (Call.glGenVertexArrays 1), b, ?_, hvao, hvbo, ?_⟩
    · rw [emitted_of_trace ht]
      rfl
    · rw [emitted_of_trace ht]
      simp [triangleEvents, boundVertexArray, boundBuffer, List.foldl_append]
  · intro fuel i e hi hd
    rcases startup_cases d with ⟨w, hs, hw⟩ | ⟨ok, w, -, hs, hw⟩ |
      ⟨ok, win, width, height, status, w, -, -, -, hs, hw⟩ |
      ⟨ok, win, width, height, a, b, build, w, -, -, hs, hw, hvao, hb⟩
    · exfalso
      rw [main_of_exit d fuel 1 w hs] at hi
      have hm := List.getElem?_mem hi
      simp only [hw] at hm
      revert hd
      simp at hm
      rcases hm with rfl | rfl | rfl <;> simp [Call.isDraw]
    · exfalso
      rw [main_of_exit d fuel 1 w hs] at hi
      have hm := List.getElem?_mem hi
      simp only [hw, initEvents] at hm
      revert hd
      simp at hm
      rcases hm with rfl | rfl | rfl | rfl | rfl | rfl | rfl <;> simp [Call.isDraw]
    · exfalso
      rw [main_of_exit d fuel 1 w hs] at hi
      have hm := List.getElem?_mem hi
      simp only [hw, initEvents, contextEvents] at hm
      revert hd
      simp at hm
      rcases hm with rfl | rfl | rfl | rfl | rfl | rfl | rfl | rfl | rfl | rfl | rfl | rfl |
        rfl <;> simp [Call.isDraw]
    · rw [main_of_ready d fuel win w hs] at hi ⊢
      have hbase : DrawsTriangleOf a w.trace := by
        apply DrawsTriangleOf_of_no_draw
        intro x hx
        rw [hw] at hx
        simp only [List.mem_append, List.mem_cons] at hx
        rcases hx with ((hx | hx) | (rfl | hx)) | (rfl | hx)
        · simp only [initEvents] at hx
          simp at hx
          rcases hx with rfl | rfl | rfl | rfl | rfl <;> rfl
        · simp only [contextEvents] at hx
          simp at hx
          rcases hx with rfl | rfl | rfl | rfl | rfl <;> rfl
        · rfl
        · have := triangleEvents_kinds a b x hx
          revert this
          cases x.call <;> simp [Call.isDraw, Call.isGeometry]
        · rfl
        · exact Call.isBuild_not_draw _ (hb x hx)
      obtain ⟨h1, h2⟩ := frameLoop_draws d win fuel w a hbase hvao i e hi hd
      obtain ⟨evs, ht, hk⟩ := frameLoop_emits d win fuel w
      have hbuild : build.filter (fun x => x.call.isGenVertexArrays) = [] := by
        rw [List.filter_eq_nil_iff]
        intro x hx
        simp [Call.isBuild_not_gen _ (hb x hx)]
      have hevs : evs.filter (fun x => x.call.isGenVertexArrays) = [] := by
        rw [List.filter_eq_nil_iff]
        intro x hx
        simp [Call.isFrame_not_gen _ (hk x hx)]
      have hsplit : (frameLoop d win fuel w).2.trace =
          (initEvents ok ++ contextEvents win width height GLEW_OK ++
            [⟨Call.glViewport 0 0 width height, Resp.none⟩]) ++ triangleEvents a b ++
          ((⟨Call.glCreateProgram, Resp.value w.shader⟩ :: build) ++ evs) := by
        rw [ht, hw]
        simp
      have hlen : (initEvents ok ++ contextEvents win width height GLEW_OK ++
          [(⟨Call.glViewport 0 0 width height, Resp.none⟩ : Event)]).length = 11 := by
        simp [initEvents, contextEvents]
      refine ⟨h1, a, b, initEvents ok ++ contextEvents win width height GLEW_OK ++
        [⟨Call.glViewport 0 0 width height, Resp.none⟩],
        (⟨Call.glCreateProgram, Resp.value w.shader⟩ :: build) ++ evs, hsplit, ?_, ?_, ?_, ?_, ?_,
        ?_, ?_, h2⟩
      · intro x hx
        simp only [List.mem_append, List.mem_cons, List.not_mem_nil, or_false] at hx
        rcases hx with ((hx | hx) | rfl) | ((rfl | hx) | hx)
        · simp only [initEvents] at hx
          simp at hx
          rcases hx with rfl | rfl | rfl | rfl | rfl <;> rfl
        · simp only [contextEvents] at hx
          simp at hx
          rcases hx with rfl | rfl | rfl | rfl | rfl <;> rfl
        · rfl
        · rfl
        · exact Call.isBuild_not_upload _ (hb x hx)
        · exact Call.isFrame_not_upload _ (hk x hx)
      · rw [hlen]
        by_contra hlt
        have hi2 : i < 20 := by omega
        have hlen2 : ((initEvents ok ++ contextEvents win width height GLEW_OK ++
            [(⟨Call.glViewport 0 0 width height, Resp.none⟩ : Event)]) ++
            triangleEvents a b).length = 20 := by
          rw [List.length_append, hlen]
          simp [triangleEvents]
        rw [hsplit, List.getElem?_append_left (by omega)] at hi
        have hm := List.getElem?_mem hi
        simp only [List.mem_append, List.mem_cons, List.not_mem_nil, or_false] at hm
        revert hd
        rcases hm with ((hx | hx) | rfl) | hx
        · simp only [initEvents] at hx
          simp at hx
          rcases hx with rfl | rfl | rfl | rfl | rfl <;> simp [Call.isDraw]
        · simp only [contextEvents] at hx
          simp at hx
          rcases hx with rfl | rfl | rfl | rfl | rfl <;> simp [Call.isDraw]
        · simp [Call.isDraw]
        · have := triangleEvents_kinds a b e hx
          revert this
          cases e.call <;> simp [Call.isDraw, Call.isGeometry]
      · rw [hlen, hsplit]
        simp [initEvents, contextEvents, triangleEvents, boundVertexArray]
      · rw [hlen, hsplit]
        simp [initEvents, contextEvents, triangleEvents, boundBuffer]
      · rw [hlen, hsplit]
        simp [initEvents, contextEvents, triangleEvents, boundVertexArray]
      · rw [hlen, hsplit]
        simp [initEvents, contextEvents, triangleEvents, boundBuffer]
      · simp only [ht, hw, List.filter_append, List.filter_cons, hbuild, hevs]
        simp [initEvents, contextEvents, triangleEvents, Call.isGenVertexArrays]

/-! ## Concrete runs -/

/-- Witness of C1: a device on which linking fails. -/
theorem link_is_checked_before_validate_witness :
    (⟨Call.glGetProgramiv 1 GL_LINK_STATUS, Resp.stored 0⟩ : Event) ∈
      emitted World.init (CompileShaders Script.linkFails.device World.init) ∧
    ((callsWhere (Call.printsFormat "Error linking program: '%s'\n")
        (emitted World.init (CompileShaders Script.linkFails.device World.init))).length = 1 ∧
      callsWhere Call.isValidateStep
        (emitted World.init (CompileShaders Script.linkFails.device World.init)) = [] ∧
      callsWhere (Call.printsFormat "Error validating program: '%s'\n")
        (emitted World.init (CompileShaders Script.linkFails.device World.init)) = []) :=
  ⟨by decide,
    (link_is_checked_before_validate Script.linkFails.device World.init).1 1 (by decide)⟩

/-- Witness of C4: the vertex stage fails to compile, the fragment stage is
still created, compiled and attached, and the program is linked. -/
theorem stages_are_built_independently_witness :
    Script.vertexFails.device.value World.init.trace Call.glCreateProgram ≠ 0 ∧
    (emitted World.init (CompileShaders Script.vertexFails.device World.init)).filter
        (fun e => e.call.isStageStep) =
      [⟨Call.glCreateShader GL_VERTEX_SHADER, Resp.value 2⟩,
       ⟨Call.glShaderSource 2 1 [vShader] [toGLint (strlen vShader)], Resp.none⟩,
       ⟨Call.glCompileShader 2, Resp.none⟩,
       ⟨Call.glGetShaderiv 2 GL_COMPILE_STATUS, Resp.stored 0⟩,
       ⟨Call.glCreateShader GL_FRAGMENT_SHADER, Resp.value 3⟩,
       ⟨Call.glShaderSource 3 1 [fShader] [toGLint (strlen fShader)], Resp.none⟩,
       ⟨Call.glCompileShader 3, Resp.none⟩,
       ⟨Call.glGetShaderiv 3 GL_COMPILE_STATUS, Resp.stored 1⟩,
       ⟨Call.glAttachShader 1 3, Resp.none⟩,
       ⟨Call.glLinkProgram 1, Resp.none⟩] ∧
    ∃ sv rv sf rf,
      (emitted World.init (CompileShaders Script.vertexFails.device World.init)).filter
          (fun e => e.call.isStageStep) =
        [⟨Call.glCreateShader GL_VERTEX_SHADER, Resp.value sv⟩,
         ⟨Call.glShaderSource sv 1 [vShader] [toGLint (strlen vShader)], Resp.none⟩,
         ⟨Call.glCompileShader sv, Resp.none⟩,
         ⟨Call.glGetShaderiv sv GL_COMPILE_STATUS, Resp.stored rv⟩] ++
        (if rv = 0 then []
         else [⟨Call.glAttachShader
            (Script.vertexFails.device.value World.init.trace Call.glCreateProgram) sv,
            Resp.none⟩]) ++
        [⟨Call.glCreateShader GL_FRAGMENT_SHADER, Resp.value sf⟩,
         ⟨Call.glShaderSource sf 1 [fShader] [toGLint (strlen fShader)], Resp.none⟩,
         ⟨Call.glCompileShader sf, Resp.none⟩,
         ⟨Call.glGetShaderiv sf GL_COMPILE_STATUS, Resp.stored rf⟩] ++
        (if rf = 0 then []
         else [⟨Call.glAttachShader
            (Script.vertexFails.device.value World.init.trace Call.glCreateProgram) sf,
            Resp.none⟩]) ++
        [⟨Call.glLinkProgram
          (Script.vertexFails.device.value World.init.trace Call.glCreateProgram),
          Resp.none⟩] :=
  ⟨by decide, by rfl,
    stages_are_built_independently Script.vertexFails.device World.init (by decide)⟩

/-- Witness of C6: the window is closed after two frames. -/
theorem frame_loop_stops_at_first_close_witness :
    startup Script.ok.device = Startup.ready 1 Script.ok.atLoop ∧
    (∀ k, k < 2 → closeAnswer Script.ok.device 1 Script.ok.atLoop k = 0) ∧
    closeAnswer Script.ok.device 1 Script.ok.atLoop 2 ≠ 0 ∧
    (main Script.ok.device 3).1 = some 0 ∧
    (callsWhere Call.isDraw (emitted Script.ok.atLoop (main Script.ok.device 3).2)).length = 2 ∧
    (main Script.ok.device 2).1 = none :=
  ⟨by rfl, by decide, by decide,
    ((frame_loop_stops_at_first_close Script.ok.device 1 Script.ok.atLoop 2 (by rfl)
      (by decide) (by decide)).1 3 (by decide)).1,
    by decide,
    (frame_loop_stops_at_first_close Script.ok.device 1 Script.ok.atLoop 2 (by rfl)
      (by decide) (by decide)).2 2 (by decide)⟩

/-- Witness of C7: each of the three start-up failures, on a device of its
own. -/
theorem startup_failures_are_fatal_witness :
    ((⟨Call.glfwInit, Resp.value 0⟩ : Event) ∈ (main Script.noGlfw.device 5).2.trace ∧
      (main Script.noGlfw.device 5).1 = some 1) ∧
    ((⟨Call.glfwCreateWindow WIDTH HEIGHT "Test Window", Resp.value 0⟩ : Event) ∈
        (main Script.noWindow.device 5).2.trace ∧
      (main Script.noWindow.device 5).1 = some 1) ∧
    ((⟨Call.glewInit, Resp.value 1⟩ : Event) ∈ (main Script.noGlew.device 5).2.trace ∧
      (main Script.noGlew.device 5).1 = some 1 ∧
      callsWhere Call.isRendering (main Script.noGlew.device 5).2.trace = []) :=
  ⟨⟨by decide, (startup_failures_are_fatal Script.noGlfw.device 5 (Or.inl (by decide))).1⟩,
   ⟨by decide, (startup_failures_are_fatal Script.noWindow.device 5
      (Or.inr (Or.inl ⟨WIDTH, HEIGHT, "Test Window", by decide⟩))).1⟩,
   ⟨by decide, (startup_failures_are_fatal Script.noGlew.device 5
      (Or.inr (Or.inr ⟨1, by decide, by decide⟩))).1,
    (startup_failures_are_fatal Script.noGlew.device 5
      (Or.inr (Or.inr ⟨1, by decide, by decide⟩))).2.2⟩⟩

/-- Witness of C8, on two devices.  On the first the vertex stage does not
compile and the program does not link; on the second the linked program does
not validate.  The diagnostics are printed and `main` still draws two frames
and returns `0`. -/
theorem shader_failures_are_not_fatal_witness :
    (glfwInitAnswer Script.buildFails.device ≠ 0 ∧
      windowAnswer Script.buildFails.device ≠ 0 ∧
      glewInitAnswer Script.buildFails.device = GLEW_OK ∧
      callsWhere Call.isPrintf (afterBuild Script.buildFails.device).trace =
        [Call.printf "Error compiling the %d shader: '%s'\n"
          [PrintfArg.num GL_VERTEX_SHADER, PrintfArg.str []],
         Call.printf "Error linking program: '%s'\n" [PrintfArg.str [69, 82, 82]]] ∧
      (main Script.buildFails.device 3).1 = some 0 ∧
      callsWhere Call.isUseOrDraw
          (emitted (afterBuild Script.buildFails.device) (main Script.buildFails.device 3).2) =
        (List.replicate 2
          [Call.glUseProgram (afterBuild Script.buildFails.device).shader,
           Call.glDrawArrays GL_TRIANGLES 0 3, Call.glUseProgram 0]).flatten) ∧
    (glfwInitAnswer Script.validateFails.device ≠ 0 ∧
      windowAnswer Script.validateFails.device ≠ 0 ∧
      glewInitAnswer Script.validateFails.device = GLEW_OK ∧
      callsWhere Call.isPrintf (afterBuild Script.validateFails.device).trace =
        [Call.printf "Error validating program: '%s'\n" [PrintfArg.str [69, 82, 82]]] ∧
      (main Script.validateFails.device 3).1 = some 0 ∧
      callsWhere Call.isUseOrDraw
          (emitted (afterBuild Script.validateFails.device)
            (main Script.validateFails.device 3).2) =
        (List.replicate 2
          [Call.glUseProgram (afterBuild Script.validateFails.device).shader,
           Call.glDrawArrays GL_TRIANGLES 0 3, Call.glUseProgram 0]).flatten) :=
  ⟨⟨by decide, by decide, by decide, by decide,
    (shader_failures_are_not_fatal Script.buildFails.device 2 3 (by decide) (by decide)
      (by decide) (by decide) (by decide) (by decide)).1,
    (shader_failures_are_not_fatal Script.buildFails.device 2 3 (by decide) (by decide)
      (by decide) (by decide) (by decide) (by decide)).2.2.2.2.2⟩,
   ⟨by decide, by decide, by decide, by decide,
    (shader_failures_are_not_fatal Script.validateFails.device 2 3 (by decide) (by decide)
      (by decide) (by decide) (by decide) (by decide)).1,
    (shader_failures_are_not_fatal Script.validateFails.device 2 3 (by decide) (by decide)
      (by decide) (by decide) (by decide) (by decide)).2.2.2.2.2⟩⟩

/-- C3, evaluated on a device whose vertex stage (name `2`) fails to compile
and which holds the log `ERR` for that stage: the only information-log query
names the program (`1`, the value of the global `shader`), not the stage, so
nothing is written to the buffer and the text printed is empty. -/
theorem AddShader_queries_the_global_shader :
    (∀ h n, Script.vertexFails.device.infoLog h (Call.glGetShaderInfoLog 2 n) =
      some [69, 82, 82]) ∧
    (⟨Call.glGetShaderiv 2 GL_COMPILE_STATUS, Resp.stored 0⟩ : Event) ∈
      emitted World.init (CompileShaders Script.vertexFails.device World.init) ∧
    callsWhere Call.isInfoLog
        (emitted World.init (CompileShaders Script.vertexFails.device World.init)) =
      [Call.glGetShaderInfoLog 1 1024] ∧
    callsWhere Call.isPrintf
        (emitted World.init (CompileShaders Script.vertexFails.device World.init)) =
      [Call.printf "Error compiling the %d shader: '%s'\n"
        [PrintfArg.num GL_VERTEX_SHADER, PrintfArg.str []]] :=
  ⟨by intro h n; rfl, by decide, by decide, by decide⟩

set_option maxRecDepth 100000 in
/-- C10 on a device whose log has 2000 characters: the text printed after the
link failure is its first 1023 characters. -/
theorem diagnostics_are_bounded_witness :
    callsWhere Call.isPrintf
        (emitted World.init (CompileShaders Script.longLog.device World.init)) =
      [Call.printf "Error linking program: '%s'\n" [PrintfArg.str (List.replicate 1023 65)]] ∧
    BoundedDiagnostics (emitted World.init (CompileShaders Script.longLog.device World.init)) :=
  ⟨by rfl, (diagnostics_are_bounded Script.longLog.device World.init 0 "" 0).1⟩

/-- C9 on a run of two frames: the events 12 to 20 of `main` are the upload
of the fixed triangle with the vertex array `1` and the buffer `1`, the first
draw call is the 42nd event, and it is issued with the vertex array `1`
bound. -/
theorem draws_the_fixed_triangle_witness :
    (main Script.ok.device 3).2.trace[41]? =
      some ⟨Call.glDrawArrays GL_TRIANGLES 0 3, Resp.none⟩ ∧
    (callsWhere Call.isDraw (main Script.ok.device 3).2.trace).length = 2 ∧
    ((main Script.ok.device 3).2.trace.drop 11).take 9 =
      [⟨Call.glGenVertexArrays 1, Resp.value 1⟩,
       ⟨Call.glBindVertexArray 1, Resp.none⟩,
       ⟨Call.glGenBuffers 1, Resp.value 1⟩,
       ⟨Call.glBindBuffer GL_ARRAY_BUFFER 1, Resp.none⟩,
       ⟨Call.glBufferData GL_ARRAY_BUFFER 36 [-1, -1, 0, 1, -1, 0, 0, 1, 0] GL_STATIC_DRAW,
         Resp.none⟩,
       ⟨Call.glVertexAttribPointer 0 3 GL_FLOAT GL_FALSE 0 0, Resp.none⟩,
       ⟨Call.glEnableVertexAttribArray 0, Resp.none⟩,
       ⟨Call.glBindBuffer GL_ARRAY_BUFFER 0, Resp.none⟩,
       ⟨Call.glBindVertexArray 0, Resp.none⟩] ∧
    boundVertexArray ((main Script.ok.device 3).2.trace.take 41) = 1 ∧
    ((⟨Call.glDrawArrays GL_TRIANGLES 0 3, Resp.none⟩ : Event).call =
        Call.glDrawArrays GL_TRIANGLES 0 3 ∧
      ∃ a b pre post,
        (main Script.ok.device 3).2.trace = pre ++
          [⟨Call.glGenVertexArrays 1, Resp.value a⟩,
           ⟨Call.glBindVertexArray a, Resp.none⟩,
           ⟨Call.glGenBuffers 1, Resp.value b⟩,
           ⟨Call.glBindBuffer GL_ARRAY_BUFFER b, Resp.none⟩,
           ⟨Call.glBufferData GL_ARRAY_BUFFER 36 [-1, -1, 0, 1, -1, 0, 0, 1, 0]
             GL_STATIC_DRAW, Resp.none⟩,
           ⟨Call.glVertexAttribPointer 0 3 GL_FLOAT GL_FALSE 0 0, Resp.none⟩,
           ⟨Call.glEnableVertexAttribArray 0, Resp.none⟩,
           ⟨Call.glBindBuffer GL_ARRAY_BUFFER 0, Resp.none⟩,
           ⟨Call.glBindVertexArray 0, Resp.none⟩] ++ post ∧
        (∀ x ∈ pre ++ post, x.call.isUpload = false) ∧
        pre.length + 9 ≤ 41 ∧
        boundVertexArray ((main Script.ok.device 3).2.trace.take (pre.length + 4)) = a ∧
        boundBuffer GL_ARRAY_BUFFER
          ((main Script.ok.device 3).2.trace.take (pre.length + 4)) = b ∧
        boundVertexArray ((main Script.ok.device 3).2.trace.take (pre.length + 5)) = a ∧
        boundBuffer GL_ARRAY_BUFFER
          ((main Script.ok.device 3).2.trace.take (pre.length + 5)) = b ∧
        (main Script.ok.device 3).2.trace.filter (fun x => x.call.isGenVertexArrays) =
          [⟨Call.glGenVertexArrays 1, Resp.value a⟩] ∧
        boundVertexArray ((main Script.ok.device 3).2.trace.take 41) = a) :=
  ⟨by decide, by decide, by decide, by decide,
    (draws_the_fixed_triangle Script.ok.device).2 3 41 _ (by decide) (by decide)⟩

end OpenGLCourseApp
